import Mathlib

/-!
Verification development for the pytest-in-docker repository.

The Python sources are embedded shallowly: pure functions become Lean
functions, container interaction is modelled by an explicit environment of
oracles (one result per issued command), and each effectful operation also
returns the list of events it emits, so that ordering and teardown
properties can be stated over traces.
-/

namespace PytestInDocker

/-! Container specification resolver, from pytest_in_docker/_types.py and
pytest_in_docker/_plugin.py. -/

/-- Errors raised by spec resolution, from the exception classes in
pytest_in_docker/_types.py. -/
inductive SpecError where
  | invalidContainerSpec
  | noContainerSpecified
  deriving DecidableEq, Repr

/-- ContainerSpec, the closed union of the three dataclasses ImageSpec,
BuildSpec and FactorySpec.  A factory is represented by an opaque numeric
identity, since only its identity matters to resolution. -/
inductive ContainerSpec where
  | imageSpec (image : String)
  | buildSpec (path : String) (tag : String)
  | factorySpec (factory : Nat)
  deriving DecidableEq, Repr

/-- Embedding of build_container_spec_from_args from
pytest_in_docker/_types.py lines 74 to 91. -/
def build_container_spec_from_args (image : Option String)
    (path : Option String) (tag : Option String) (factory : Option Nat) :
    Except SpecError ContainerSpec :=
  match factory with
  | some f => .ok (.factorySpec f)
  | none =>
    match image with
    | some i => .ok (.imageSpec i)
    | none =>
      match path, tag with
      | some p, some t => .ok (.buildSpec p t)
      | _, _ => .error .invalidContainerSpec

/-- Embedding of the marker variant resolve_container_spec from
pytest_in_docker/_plugin.py lines 39 to 52.  The marker arguments are the
four structured inputs; the funcargs mapping carries the parametrized
values.  The guard mirrors the test on marker.args or marker.kwargs: it
holds exactly when some explicit argument was supplied. -/
def resolve_container_spec (image : Option String) (path : Option String)
    (tag : Option String) (factory : Option Nat)
    (funcargs : List (String × String)) : Except SpecError ContainerSpec :=
  if image.isSome || path.isSome || tag.isSome || factory.isSome then
    build_container_spec_from_args image path tag factory
  else
    match funcargs.lookup "image" with
    | some i => .ok (.imageSpec i)
    | none => .error .noContainerSpecified

/-! Closure sanitizer, from pytest_in_docker/_container.py lines 176 to 243.

A Python function object is modelled with its pickling-relevant attributes.
Globals dictionaries are mutable shared objects in Python, so a function
holds a reference (a numeric key into a store of dictionaries) rather than
the dictionary itself.  The code attribute is a small expression language
rich enough to observe reads of globals and transitive helper calls, which
is exactly what the sanitizer manipulates. -/

/-- Body of a modelled function: return a constant, return the argument,
return a non-function global binding, or tail-call a function bound in the
globals dictionary on the same argument. -/
inductive Code where
  | retConst (n : Nat)
  | retArg
  | retGlobal (name : String)
  | callGlobal (name : String)
  deriving DecidableEq, Repr

/-- A function object: code plus the attributes copied by _make_picklable.
The defaults, kwdefaults, annots and closure attributes are opaque tokens;
annots stands for the annotation mapping attribute.  globalsRef is the
reference to the globals dictionary in the store. -/
structure FuncObj where
  code : Code
  name : String
  qualname : String
  module : String
  defaults : Nat
  kwdefaults : Nat
  annots : Nat
  closure : Nat
  globalsRef : Nat
  deriving DecidableEq, Repr

/-- A value bound in a globals dictionary: either a plain function object,
or any other object carrying a callable flag (classes and builtins are
callable but are not of FunctionType, so the sanitizer copies them as-is). -/
inductive Value where
  | func (f : FuncObj)
  | data (callable : Bool) (id : Nat)
  deriving DecidableEq, Repr

/-- A globals dictionary in insertion order. -/
abbrev Dict := List (String × Value)

/-- The store of all live globals dictionaries, keyed by reference. -/
abbrev Store := List (Nat × Dict)

/-- Association-list lookup by decidable equality of keys. -/
def alookup {α β : Type} [DecidableEq α] (k : α) : List (α × β) → Option β
  | [] => none
  | (k2, v) :: rest => if k = k2 then some v else alookup k rest

/-- Dereference a globals reference; a dangling reference gives the empty
dictionary. -/
def lookupStore (σ : Store) (r : Nat) : Dict := (alookup r σ).getD []

/-- Allocate or overwrite the dictionary at reference r. -/
def insertStore (σ : Store) (r : Nat) (d : Dict) : Store := (r, d) :: σ

/-- First pass of _make_picklable (lines 200 to 213): walk the globals in
order, drop the binding named with the assertion-rewriter key, send
same-module functions to the to-patch list and keep every other binding
as-is. -/
def firstPass (m : String) : Dict → Dict × List String
  | [] => ([], [])
  | (k, v) :: rest =>
    let (d, tp) := firstPass m rest
    if k = "@pytest_ar" then (d, tp)
    else
      match v with
      | .func g => if g.module = m then (d, k :: tp) else ((k, v) :: d, tp)
      | .data c i => ((k, .data c i) :: d, tp)

/-- Clone a function object into the shared fresh namespace: the new
function keeps code, name, defaults and closure (the FunctionType
constructor arguments) and the qualname, annots and kwdefaults attributes
assigned afterwards, while the globals reference becomes the fresh
namespace and the module becomes the sentinel. -/
def cloneInto (fresh : Nat) (g : FuncObj) : FuncObj :=
  { code := g.code
    globalsRef := fresh
    name := g.name
    defaults := g.defaults
    closure := g.closure
    module := "__mp_main__"
    qualname := g.qualname
    annots := g.annots
    kwdefaults := g.kwdefaults }

/-- Second pass of _make_picklable (lines 215 to 229): clone each
collected same-module callable into the shared namespace, appending in
collection order.  The lookup mirrors the re-indexing of the original
globals by name. -/
def secondPass (fresh : Nat) (g : Dict) : List String → Dict
  | [] => []
  | k :: rest =>
    (match alookup k g with
     | some (.func h) => [(k, .func (cloneInto fresh h))]
     | _ => []) ++ secondPass fresh g rest

/-- Embedding of _make_picklable from pytest_in_docker/_container.py lines
176 to 243: returns the clone of the target function together with the
shared clean globals dictionary allocated at the fresh reference. -/
def make_picklable (σ : Store) (fresh : Nat) (f : FuncObj) : FuncObj × Dict :=
  let g := lookupStore σ f.globalsRef
  let p := firstPass f.module g
  let clean_globals := p.1 ++ secondPass fresh g p.2
  (cloneInto fresh f, clean_globals)

/-- Fuel-bounded evaluation of a modelled function on one argument.  Only
non-function results are observable, mirroring a test body that returns
data; name resolution goes through the globals dictionary of the function
being run, which is exactly what rehoming changes. -/
def eval (σ : Store) : Nat → FuncObj → Nat → Option Nat
  | 0, _, _ => none
  | fuel + 1, f, arg =>
    match f.code with
    | .retConst n => some n
    | .retArg => some arg
    | .retGlobal s =>
      match alookup s (lookupStore σ f.globalsRef) with
      | some (.data _ i) => some i
      | _ => none
    | .callGlobal s =>
      match alookup s (lookupStore σ f.globalsRef) with
      | some (.func g) => eval σ fuel g arg
      | _ => none

/-- Reference carried by a value: functions point at their globals
dictionary, other objects at nothing. -/
def valueRef : Value → Nat
  | .func g => g.globalsRef
  | .data _ _ => 0

/-- Every value of the dictionary keeps its globals reference below the
bound. -/
def DictRefsBelow (b : Nat) (d : Dict) : Prop :=
  ∀ kv ∈ d, valueRef kv.2 < b

/-- Every allocated reference and every reference stored in a dictionary
stays below the bound; fresh references are then taken at or above it. -/
def StoreRefsBelow (b : Nat) (σ : Store) : Prop :=
  ∀ e ∈ σ, e.1 < b ∧ DictRefsBelow b e.2

/-- No binding of the dictionary is a function from a foreign module that
already carries the sentinel module name. -/
def NoForeignSentinel (m : String) (d : Dict) : Prop :=
  ∀ kv ∈ d, ∀ g, kv.2 = Value.func g → g.module ≠ m → g.module ≠ "__mp_main__"

/-- Redirect a function whose globals reference is the first fresh
namespace to the second one; used to relate the once- and twice-sanitized
worlds. -/
def retarget (fresh fresh2 : Nat) (g : FuncObj) : FuncObj :=
  if g.globalsRef = fresh then { g with globalsRef := fresh2 } else g

/-- Value-level retargeting. -/
def retargetVal (fresh fresh2 : Nat) : Value → Value
  | .func g => .func (retarget fresh fresh2 g)
  | .data c i => .data c i

/-! Container bootstrap, from pytest_in_docker/_container.py.  Commands run
in the container are resolved by an environment of oracles; every effectful
operation returns its result together with the list of events it emitted. -/

/-- Result of running a command in the container, mirroring the exec
result of the container library. -/
structure ExecResult where
  exit_code : Nat
  output : String
  deriving DecidableEq, Repr

/-- Python exception classes that can escape a connection attempt.  The
classes connectionRefused, connectionReset and otherOSError are subclasses
of OSError in Python; eofError and otherExc are not. -/
inductive PyExc where
  | eofError (msg : String)
  | connectionRefused (msg : String)
  | connectionReset (msg : String)
  | otherOSError (msg : String)
  | otherExc (msg : String)
  deriving DecidableEq, Repr

/-- Message of an exception, the value of str applied to it. -/
def PyExc.msg : PyExc → String
  | .eofError m => m
  | .connectionRefused m => m
  | .connectionReset m => m
  | .otherOSError m => m
  | .otherExc m => m

/-- Membership in the except tuple of _connect_with_retries, which names
EOFError, ConnectionRefusedError and OSError; by the Python class
hierarchy this catches EOFError together with every OSError subclass. -/
def caughtByRetry : PyExc → Bool
  | .eofError _ => true
  | .connectionRefused _ => true
  | .connectionReset _ => true
  | .otherOSError _ => true
  | .otherExc _ => false

/-- Errors that can escape the bootstrap functions: the ContainerPrepareError
and RuntimeError classes raised by this code, the builtin EnvironmentError
alias of OSError (never raised by this code, present so that statements can
distinguish it), and an uncaught exception propagating out of a connection
attempt. -/
inductive PyError where
  | containerPrepare (msg : String)
  | runtimeError (msg : String)
  | environmentError (msg : String)
  | uncaughtExc (e : PyExc)
  deriving DecidableEq, Repr

/-- What happens inside the try block of one connection attempt: the
connect and echo round trip succeeds, the echo comes back wrong (raising
ContainerPrepareError inside the try block), or an exception is raised. -/
inductive AttemptOutcome where
  | ok
  | echoMismatch
  | raiseExc (e : PyExc)
  deriving DecidableEq, Repr

/-- Observable events of the embedded operations, used to state ordering
and teardown properties. -/
inductive Event where
  | execCmd (cmd : List String)
  | putArchive (destDir : String)
  | connectAttempt (host : String) (port : Nat)
  | sleepFor (seconds : ℚ)
  | enterContainer (image : String)
  | startContainer
  | exitContainer (image : String)
  | enterImage (path : String) (tag : String)
  | exitImage (path : String) (tag : String)
  | enterFactory (factory : Nat)
  | exitFactory (factory : Nat)
  | runPickledCall (sync_request_timeout : Int)
  deriving DecidableEq, Repr

/-- Oracles describing one concrete container and network: the result of
each command, whether the underlying container handle is present, the host
address data, and the outcome of each successive connection attempt. -/
structure ContainerEnv where
  exec : List String → ExecResult
  containerPresent : Bool
  hostIp : String
  exposedPort : Nat → Nat
  attempt : Nat → AttemptOutcome

/-- The rpyc connection object: which attempt produced it and the
sync_request_timeout written into its config. -/
structure Conn where
  attemptIndex : Nat
  sync_request_timeout : Int
  deriving DecidableEq, Repr

/-- The fixed rpyc port constant. -/
def RPYC_PORT : Nat := 51337

/-- The virtual environment directory constant. -/
def VENV_DIR : String := "/opt/pytest-in-docker"

/-- The connection retry budget constant. -/
def CONNECT_RETRIES : Nat := 10

/-- The inter-attempt delay constant, 0.5 seconds. -/
def CONNECT_DELAY : ℚ := 1 / 2

/-- The server bootstrap script text, parameterized by the fixed port. -/
def RPYC_SERVER_SCRIPT : String :=
  "\nfrom rpyc.utils.server import ThreadedServer\n" ++
  "from rpyc import SlaveService as ChildService\n\n" ++
  "server = ThreadedServer(ChildService, port=" ++ toString RPYC_PORT ++
  ")\nserver.start()\n"

/-- Stand-in for the one-line version query passed to the interpreter; the
original literal contains brace and quote characters elided here, and the
text is used only as a command key for the exec oracle. -/
def version_script : String :=
  "import sys; print(sys.version_info major dot minor)"

/-- Python str.strip on both ends, applied to decoded command output. -/
def pyStrip (s : String) : String :=
  ⟨(((s.data.dropWhile Char.isWhitespace).reverse).dropWhile
      Char.isWhitespace).reverse⟩

/-- Embedding of copy_file_to_container from
pytest_in_docker/_container.py lines 38 to 56.  Building the tar archive
in memory is pure and emits nothing; the handle check precedes the archive
upload, and only a failed move of the transferred file raises
ContainerPrepareError. -/
def copy_file_to_container (env : ContainerEnv) (content : String)
    (path : String) : Except PyError Unit × List Event :=
  if env.containerPresent = false then
    (.error (.runtimeError "Container is not running."), [])
  else
    let mv := ["mv", "/tmp/transfer.txt", path]
    let res := env.exec mv
    if res.exit_code ≠ 0 then
      (.error (.containerPrepare
        ("Failed to move temporary file to destination: " ++ res.output)),
       [.putArchive "/tmp", .execCmd mv])
    else
      (.ok (), [.putArchive "/tmp", .execCmd mv])

/-- Embedding of find_binary from pytest_in_docker/_container.py lines 59
to 64; the quoting of the name in the original message is elided. -/
def find_binary (env : ContainerEnv) (name : String) :
    Except PyError String × List Event :=
  let res := env.exec ["which", name]
  if res.exit_code ≠ 0 then
    (.error (.containerPrepare
      (name ++ " not found in the container: " ++ res.output)),
     [.execCmd ["which", name]])
  else
    (.ok (pyStrip res.output), [.execCmd ["which", name]])

/-- Probe loop of find_one_of: try each name, continuing past a
ContainerPrepareError from find_binary. -/
def findOneOfGo (env : ContainerEnv) : List String →
    Option String × List Event
  | [] => (none, [])
  | n :: rest =>
    match find_binary env n with
    | (.ok p, evs) => (some p, evs)
    | (.error _, evs) =>
      let r := findOneOfGo env rest
      (r.1, evs ++ r.2)

/-- Embedding of find_one_of from pytest_in_docker/_container.py lines 67
to 74. -/
def find_one_of (env : ContainerEnv) (names : List String) :
    Except PyError String × List Event :=
  match findOneOfGo env names with
  | (some p, evs) => (.ok p, evs)
  | (none, evs) =>
    (.error (.containerPrepare
      ("None of [" ++ String.intercalate ", " names ++
        "] found in the container")), evs)

/-- Embedding of run_or_fail from pytest_in_docker/_container.py lines 77
to 83. -/
def run_or_fail (env : ContainerEnv) (cmd : List String)
    (error_msg : String) : Except PyError Unit × List Event :=
  let res := env.exec cmd
  if res.exit_code ≠ 0 then
    (.error (.containerPrepare (error_msg ++ ": Error: " ++ res.output)),
     [.execCmd cmd])
  else
    (.ok (), [.execCmd cmd])

/-- Embedding of check_python_version from
pytest_in_docker/_container.py lines 86 to 103; local_ver is the host
interpreter version string, a parameter of the model. -/
def check_python_version (env : ContainerEnv) (python : String)
    (local_ver : String) : Except PyError Unit × List Event :=
  let cmd := [python, "-c", version_script]
  let res := env.exec cmd
  if res.exit_code ≠ 0 then
    (.error (.containerPrepare
      ("Failed to determine Python version in the container: " ++
        res.output)), [.execCmd cmd])
  else
    let remote_ver := pyStrip res.output
    if remote_ver ≠ local_ver then
      (.error (.containerPrepare
        ("Python version mismatch: host has " ++ local_ver ++
          " but container has " ++ remote_ver ++
          ". Matching major.minor versions are required for pickle " ++
          "compatibility.")), [.execCmd cmd])
    else
      (.ok (), [.execCmd cmd])

/-- Embedding of install_deps from pytest_in_docker/_container.py lines
106 to 121: try a venv, fall back to a direct install with the
break-system-packages flag inserted at position 4, and return the python
path to use afterwards. -/
def install_deps (env : ContainerEnv) (python : String) :
    Except PyError String × List Event :=
  let venvCmd := [python, "-m", "venv", VENV_DIR]
  let venv_ok := (env.exec venvCmd).exit_code = 0
  let python2 := if venv_ok then VENV_DIR ++ "/bin/python" else python
  let base := [python2, "-m", "pip", "install", "cloudpickle", "rpyc",
    "pytest"]
  let install_cmd :=
    if venv_ok then base else base.insertIdx 4 "--break-system-packages"
  match run_or_fail env install_cmd "Failed to install container deps." with
  | (.ok _, evs) => (.ok python2, .execCmd venvCmd :: evs)
  | (.error e, evs) => (.error e, .execCmd venvCmd :: evs)

/-- String printed for the last saved exception in the exhaustion message;
the f-string renders None when no exception was saved. -/
def lastErrStr : Option PyExc → String
  | none => "None"
  | some e => e.msg

/-- Retry loop of _connect_with_retries: remaining iterations, index of
the next attempt, and the last transient exception saved so far. -/
def connectGo (env : ContainerEnv) (host : String) (port : Nat)
    (timeout : Int) : Nat → Nat → Option PyExc →
    Except PyError Conn × List Event
  | 0, _, lastErr =>
    (.error (.containerPrepare
      ("Could not connect to rpyc server after " ++
        toString CONNECT_RETRIES ++ " attempts: " ++ lastErrStr lastErr)),
     [])
  | remaining + 1, idx, lastErr =>
    let ev := Event.connectAttempt host port
    match env.attempt idx with
    | .ok => (.ok ⟨idx, timeout⟩, [ev])
    | .echoMismatch =>
      (.error (.containerPrepare
        "Failed to communicate with rpyc server on the container."), [ev])
    | .raiseExc e =>
      if caughtByRetry e then
        let r := connectGo env host port timeout remaining (idx + 1) (some e)
        (r.1, ev :: .sleepFor CONNECT_DELAY :: r.2)
      else
        (.error (.uncaughtExc e), [ev])

/-- Embedding of _connect_with_retries from
pytest_in_docker/_container.py lines 124 to 147.  The config write of
sync_request_timeout happens on the connection before the echo check, so a
successful attempt returns a connection already carrying the timeout. -/
def connect_with_retries (env : ContainerEnv) (host : String) (port : Nat)
    (sync_request_timeout : Int := 30) : Except PyError Conn × List Event :=
  connectGo env host port sync_request_timeout CONNECT_RETRIES 0 none

/-- Stage labels for the bootstrap trace: 1 locate interpreter, 2 version
check, 3 dependency install, 4 server injection and launch, 5 connect and
liveness. -/
def tagStage (s : Nat) (evs : List Event) : List (Nat × Event) :=
  evs.map (fun e => (s, e))

/-- Embedding of bootstrap_container from pytest_in_docker/_container.py
lines 150 to 173, threading the trace of each stage tagged with its stage
number. -/
def bootstrap_container (env : ContainerEnv) (local_ver : String)
    (sync_request_timeout : Int := 30) :
    Except PyError Conn × List (Nat × Event) :=
  match find_one_of env ["python3", "python"] with
  | (.error e, evs1) => (.error e, tagStage 1 evs1)
  | (.ok python, evs1) =>
    match check_python_version env python local_ver with
    | (.error e, evs2) => (.error e, tagStage 1 evs1 ++ tagStage 2 evs2)
    | (.ok _, evs2) =>
      match install_deps env python with
      | (.error e, evs3) =>
        (.error e, tagStage 1 evs1 ++ tagStage 2 evs2 ++ tagStage 3 evs3)
      | (.ok python2, evs3) =>
        match copy_file_to_container env RPYC_SERVER_SCRIPT
            "/tmp/rpyc_server.py" with
        | (.error e, evs4) =>
          (.error e, tagStage 1 evs1 ++ tagStage 2 evs2 ++
            tagStage 3 evs3 ++ tagStage 4 evs4)
        | (.ok _, evs4) =>
          match run_or_fail env
              ["sh", "-c", python2 ++ " /tmp/rpyc_server.py &"]
              "Failed to start rpyc server on the container." with
          | (.error e, evs5) =>
            (.error e, tagStage 1 evs1 ++ tagStage 2 evs2 ++
              tagStage 3 evs3 ++ tagStage 4 (evs4 ++ evs5))
          | (.ok _, evs5) =>
            let r := connect_with_retries env env.hostIp
              (env.exposedPort RPYC_PORT) sync_request_timeout
            (r.1, tagStage 1 evs1 ++ tagStage 2 evs2 ++ tagStage 3 evs3 ++
              tagStage 4 (evs4 ++ evs5) ++ tagStage 5 r.2)

/-! Orchestration, from pytest_in_docker/_plugin.py. -/

/-- Outcome of the remote invocation of the pickled test body: a normal
return, or an exception raised remotely, identified by its type name and
message, which rpyc re-raises on the caller side. -/
inductive RemoteOutcome where
  | normal
  | raised (excType : String) (msg : String)
  deriving DecidableEq, Repr

/-- Failures observable from one orchestrated test invocation. -/
inductive RunError where
  | boot (e : PyError)
  | remote (excType : String) (msg : String)
  | invalidSpec (msg : String)
  deriving DecidableEq, Repr

/-- Environment of one orchestrated invocation: the container oracles, the
host interpreter version, and the outcome of the remote call. -/
structure OrchEnv where
  cont : ContainerEnv
  local_ver : String
  remote : RemoteOutcome

/-- Embedding of run_pickled from pytest_in_docker/_container.py lines 246
to 258 at the orchestration level: it uses the bootstrapped connection, so
the emitted event records the sync_request_timeout the connection carries,
and the remote exception, if any, propagates to the caller. -/
def run_pickled (conn : Conn) (remote : RemoteOutcome) :
    Except RunError Unit × List Event :=
  match remote with
  | .normal => (.ok (), [.runPickledCall conn.sync_request_timeout])
  | .raised ty m => (.error (.remote ty m),
      [.runPickledCall conn.sync_request_timeout])

/-- Shared tail of the image and build branches: start the container,
bootstrap it forwarding the timeout, and run the pickled test. -/
def runInStartedContainer (env : OrchEnv) (sync_request_timeout : Int) :
    Except RunError Unit × List Event :=
  match bootstrap_container env.cont env.local_ver sync_request_timeout with
  | (.error e, bevs) => (.error (.boot e), Event.startContainer :: bevs.map Prod.snd)
  | (.ok conn, bevs) =>
    let r := run_pickled conn env.remote
    (r.1, Event.startContainer :: bevs.map Prod.snd ++ r.2)

/-- Embedding of _run_test_in_container from pytest_in_docker/_plugin.py
lines 55 to 92.  Each with block contributes an enter event and an exit
event; the exit event is emitted on every path out of the block, which is
the scoped-release semantics of the with statement.  The factory branch of
the source calls bootstrap_container without the sync_request_timeout
argument, so the default of 30 is what reaches the connection there. -/
def run_test_in_container (env : OrchEnv) (spec : ContainerSpec)
    (sync_request_timeout : Int := 30) :
    Except RunError Unit × List Event :=
  match spec with
  | .imageSpec img =>
    let r := runInStartedContainer env sync_request_timeout
    (r.1, Event.enterContainer img :: r.2 ++ [Event.exitContainer img])
  | .buildSpec path tag =>
    let r := runInStartedContainer env sync_request_timeout
    (r.1, Event.enterImage path tag :: Event.enterContainer tag :: r.2 ++
      [Event.exitContainer tag, Event.exitImage path tag])
  | .factorySpec fac =>
    match bootstrap_container env.cont env.local_ver with
    | (.error e, bevs) =>
      (.error (.boot e), Event.enterFactory fac :: bevs.map Prod.snd ++
        [Event.exitFactory fac])
    | (.ok conn, bevs) =>
      let r := run_pickled conn env.remote
      (r.1, Event.enterFactory fac :: bevs.map Prod.snd ++ r.2 ++
        [Event.exitFactory fac])

/-- Result of reading the timeout ini option: the getini call raised
ValueError because the option is not registered, returned a falsy value,
or returned a truthy value already converted by int. -/
inductive IniOutcome where
  | valueError
  | falsy
  | intVal (n : Int)
  deriving DecidableEq, Repr

/-- Embedding of _get_timeout from pytest_in_docker/_plugin.py lines 95 to
106: a timeout marker with arguments wins, then a truthy ini value, then
the default of 30.  The marker argument is none when no timeout marker is
present; a marker with an empty argument list falls through like a missing
marker. -/
def get_timeout (markerArgs : Option (List Int)) (ini : IniOutcome) : Int :=
  match markerArgs with
  | some (t :: _) => t
  | _ =>
    match ini with
    | .valueError => 30
    | .falsy => 30
    | .intVal n => n

/-! Concrete inputs used to instantiate the theorems. -/

/-- A helper function that reads the global X; it already carries the
sentinel module name although it lives in its own namespace 5. -/
def exHelper : FuncObj :=
  { code := .retGlobal "X"
    name := "g"
    qualname := "g"
    module := "__mp_main__"
    defaults := 0
    kwdefaults := 0
    annots := 0
    closure := 0
    globalsRef := 5 }

/-- A test function in module test_mod whose body calls the global g. -/
def exTarget : FuncObj :=
  { code := .callGlobal "g"
    name := "f"
    qualname := "f"
    module := "test_mod"
    defaults := 1
    kwdefaults := 2
    annots := 3
    closure := 4
    globalsRef := 0 }

/-- Store for the idempotence counterexample: the target sees g and X = 1,
while the namespace of the helper binds X = 2. -/
def exStore : Store :=
  [(0, [("g", .func exHelper), ("X", .data false 1)]),
   (5, [("X", .data false 2)])]

/-- First sanitization of the example target. -/
def exOnce : FuncObj × Dict := make_picklable exStore 10 exTarget

/-- Store after the first sanitization allocated namespace 10. -/
def exStore1 : Store := insertStore exStore 10 exOnce.2

/-- Second sanitization, applied to the already-sanitized clone. -/
def exTwice : FuncObj × Dict := make_picklable exStore1 11 exOnce.1

/-- Store after the second sanitization allocated namespace 11. -/
def exStore2 : Store := insertStore exStore1 11 exTwice.2

/-- A well-behaved sanitizer input: module-level helper and data constant,
no foreign sentinel functions, plus the rewrite hook binding that must be
dropped. -/
def wfHelper : FuncObj :=
  { code := .retGlobal "X"
    name := "helper"
    qualname := "helper"
    module := "test_mod"
    defaults := 0
    kwdefaults := 0
    annots := 0
    closure := 0
    globalsRef := 0 }

/-- Globals dictionary of the well-behaved input. -/
def wfGlobals : Dict :=
  [("@pytest_ar", .data false 9), ("helper", .func wfHelper),
   ("X", .data false 7), ("cls", .data true 8)]

/-- Store of the well-behaved input. -/
def wfStore : Store := [(0, wfGlobals)]

/-- The well-behaved target calls helper through its globals. -/
def wfTarget : FuncObj :=
  { code := .callGlobal "helper"
    name := "test_fn"
    qualname := "test_fn"
    module := "test_mod"
    defaults := 0
    kwdefaults := 0
    annots := 0
    closure := 0
    globalsRef := 0 }

/-- A container whose commands all succeed: which finds the interpreter,
the version query reports the given version, and every other command exits
zero; connection attempts follow the given oracle. -/
def demoEnvWith (ver : String) (att : Nat → AttemptOutcome) : ContainerEnv :=
  { exec := fun cmd =>
      if cmd.take 1 = ["which"] then ⟨0, "/usr/bin/python3"⟩
      else if cmd.take 2 = ["/usr/bin/python3", "-c"] then ⟨0, ver⟩
      else ⟨0, ""⟩
    containerPresent := true
    hostIp := "localhost"
    exposedPort := fun _ => 40000
    attempt := att }

/-- Fully healthy container reporting version 3.12. -/
def demoEnv : ContainerEnv := demoEnvWith "3.12" (fun _ => .ok)

/-- Container whose interpreter reports 3.9 instead of the host 3.12. -/
def mismatchEnv : ContainerEnv := demoEnvWith "3.9" (fun _ => .ok)

/-- Container in which every command fails, so no interpreter is found. -/
def noPythonEnv : ContainerEnv :=
  { exec := fun _ => ⟨1, "not found"⟩
    containerPresent := true
    hostIp := "localhost"
    exposedPort := fun _ => 0
    attempt := fun _ => .ok }

/-- Healthy container whose first connection attempt raises an OSError
that is neither connection-refused nor transport-reset nor end-of-stream,
and whose second attempt succeeds. -/
def osRetryEnv : ContainerEnv :=
  demoEnvWith "3.12"
    (fun i => if i = 0 then .raiseExc (.otherOSError "Permission denied")
     else .ok)

/-- Healthy container whose connection attempts are all refused. -/
def neverEnv : ContainerEnv :=
  demoEnvWith "3.12" (fun _ => .raiseExc (.connectionRefused "refused"))

/-- Container whose underlying handle is absent. -/
def absentEnv : ContainerEnv := { demoEnv with containerPresent := false }

/-- Container whose handle is present but whose file move fails. -/
def mvFailEnv : ContainerEnv :=
  { demoEnv with
    exec := fun cmd =>
      if cmd.take 1 = ["mv"] then ⟨1, "mv: read-only file system"⟩
      else demoEnv.exec cmd }

/-- Orchestration environment over the healthy container. -/
def demoOrch (remote : RemoteOutcome) : OrchEnv :=
  { cont := demoEnv
    local_ver := "3.12"
    remote := remote }

/-- Boolean test distinguishing the builtin EnvironmentError class from
the errors this code raises. -/
def errIsEnvironment : Except PyError α → Bool
  | .error (.environmentError _) => true
  | _ => false

/-- Attempt outcomes that land in the except tuple of the retry loop. -/
def caughtOutcome : AttemptOutcome → Bool
  | .raiseExc e => caughtByRetry e
  | _ => false

/-- Number of connection attempts recorded in a trace. -/
def countAttempts (evs : List Event) : Nat :=
  evs.countP (fun e => match e with
    | .connectAttempt _ _ => true
    | _ => false)

/-- Events of one transiently failed attempt: the attempt and the fixed
delay. -/
def transientBlock (host : String) (port : Nat) : List Event :=
  [.connectAttempt host port, .sleepFor CONNECT_DELAY]

/-! Theorems.  Generic association-list lemmas come first, then the claim
theorems grouped by component. -/

section AssocLemmas

variable {α β γ : Type} [DecidableEq α]

theorem alookup_append_left {k : α} {v : β} {l1 l2 : List (α × β)}
    (h : alookup k l1 = some v) : alookup k (l1 ++ l2) = some v := by
  induction l1 with
  | nil => simp [alookup] at h
  | cons kv rest ih =>
    obtain ⟨k2, w⟩ := kv
    by_cases hk : k = k2
    · simp [alookup, hk] at h ⊢
      exact h
    · simp [alookup, hk] at h ⊢
      exact ih h

theorem alookup_append_right {k : α} {l1 l2 : List (α × β)}
    (h : alookup k l1 = none) : alookup k (l1 ++ l2) = alookup k l2 := by
  induction l1 with
  | nil => rfl
  | cons kv rest ih =>
    obtain ⟨k2, w⟩ := kv
    by_cases hk : k = k2
    · simp [alookup, hk] at h
    · simp [alookup, hk] at h ⊢
      exact ih h

theorem alookup_not_mem {k : α} {l : List (α × β)}
    (h : k ∉ l.map Prod.fst) : alookup k l = none := by
  induction l with
  | nil => rfl
  | cons kv rest ih =>
    obtain ⟨k2, w⟩ := kv
    have hk : k ≠ k2 := fun he => h (by simp [he])
    have h2 : k ∉ rest.map Prod.fst := fun hm => h (by simp [hm])
    simp [alookup, hk]
    exact ih h2

theorem alookup_mem {k : α} {v : β} {l : List (α × β)}
    (h : alookup k l = some v) : (k, v) ∈ l := by
  induction l with
  | nil => simp [alookup] at h
  | cons kv rest ih =>
    obtain ⟨k2, w⟩ := kv
    by_cases hk : k = k2
    · simp [alookup, hk] at h
      simp [hk, h]
    · simp [alookup, hk] at h
      exact List.mem_cons_of_mem _ (ih h)

theorem alookup_of_mem_nodup {k : α} {v : β} {l : List (α × β)}
    (hn : (l.map Prod.fst).Nodup) (h : (k, v) ∈ l) :
    alookup k l = some v := by
  induction l with
  | nil => simp at h
  | cons kv rest ih =>
    obtain ⟨k2, w⟩ := kv
    obtain ⟨hk2, hn2⟩ := List.nodup_cons.mp hn
    rcases List.mem_cons.mp h with h1 | h1
    · have e1 : k = k2 := congrArg Prod.fst h1
      have e2 : v = w := congrArg Prod.snd h1
      subst e1
      subst e2
      simp [alookup]
    · have hk : k ≠ k2 := by
        intro he
        subst he
        exact hk2 (List.mem_map.mpr ⟨(k, v), h1, rfl⟩)
      simp [alookup, hk]
      exact ih hn2 h1

theorem alookup_map_value {k : α} (f : β → γ) (l : List (α × β)) :
    alookup k (l.map (fun kv => (kv.1, f kv.2))) = (alookup k l).map f := by
  induction l with
  | nil => rfl
  | cons kv rest ih =>
    obtain ⟨k2, w⟩ := kv
    by_cases hk : k = k2
    · simp [alookup, hk]
    · simp [alookup, hk, ih]

end AssocLemmas

/-! Claim C2: spec resolution precedence. -/

/-- C2.  Spec resolution follows the precedence factory, then explicit
image, then path plus tag, then the funcargs-derived image key: a supplied
factory yields a FactorySpec regardless of the other arguments, otherwise
a supplied image yields an ImageSpec, otherwise both path and tag yield a
BuildSpec, any other explicit combination raises
InvalidContainerSpecError, and the marker variant with no explicit
arguments reads the image funcarg or raises NoContainerSpecifiedError. -/
theorem spec_resolution_precedence :
    (∀ (i p t : Option String) (fct : Nat),
      build_container_spec_from_args i p t (some fct) =
        .ok (.factorySpec fct)) ∧
    (∀ (i : String) (p t : Option String),
      build_container_spec_from_args (some i) p t none = .ok (.imageSpec i)) ∧
    (∀ (p t : String),
      build_container_spec_from_args none (some p) (some t) none =
        .ok (.buildSpec p t)) ∧
    (∀ (p : String),
      build_container_spec_from_args none (some p) none none =
        .error .invalidContainerSpec) ∧
    (∀ (t : String),
      build_container_spec_from_args none none (some t) none =
        .error .invalidContainerSpec) ∧
    (build_container_spec_from_args none none none none =
      .error .invalidContainerSpec) ∧
    (∀ (i p t : Option String) (fct : Option Nat)
        (fa : List (String × String)),
      (i.isSome || p.isSome || t.isSome || fct.isSome) = true →
      resolve_container_spec i p t fct fa =
        build_container_spec_from_args i p t fct) ∧
    (∀ (fa : List (String × String)) (i : String),
      fa.lookup "image" = some i →
      resolve_container_spec none none none none fa = .ok (.imageSpec i)) ∧
    (∀ (fa : List (String × String)),
      fa.lookup "image" = none →
      resolve_container_spec none none none none fa =
        .error .noContainerSpecified) := by
  refine ⟨fun i p t fct => rfl, fun i p t => rfl, fun p t => rfl,
    fun p => rfl, fun t => rfl, rfl, ?_, ?_, ?_⟩
  · intro i p t fct fa h
    simp [resolve_container_spec, h]
  · intro fa i h
    simp [resolve_container_spec, h]
  · intro fa h
    simp [resolve_container_spec, h]

/-- Witness for C2 at concrete inputs: the factory wins over every other
supplied argument, the funcargs fallback resolves the parametrized image,
and an empty funcargs mapping with no explicit arguments fails. -/
theorem spec_resolution_precedence_witness :
    build_container_spec_from_args (some "img") (some "p") (some "t")
      (some 7) = .ok (.factorySpec 7) ∧
    resolve_container_spec none none none none
      [("image", "python:alpine")] = .ok (.imageSpec "python:alpine") ∧
    resolve_container_spec none none none none [] =
      .error .noContainerSpecified :=
  ⟨spec_resolution_precedence.1 (some "img") (some "p") (some "t") 7,
   spec_resolution_precedence.2.2.2.2.2.2.2.1 [("image", "python:alpine")]
     "python:alpine" (by decide),
   spec_resolution_precedence.2.2.2.2.2.2.2.2 [] (by decide)⟩

/-! Claim C9: the sanitizer clone preserves every attribute except module
and globals. -/

/-- C9.  The clone returned by the sanitizer keeps the code, name,
qualname, defaults, kwdefaults, annotation-mapping and closure attributes
of the input function, while its module becomes the sentinel and its
globals reference becomes the fresh shared namespace. -/
theorem make_picklable_preserves_attributes (σ : Store) (fresh : Nat)
    (f : FuncObj) :
    ((make_picklable σ fresh f).1.code = f.code) ∧
    ((make_picklable σ fresh f).1.name = f.name) ∧
    ((make_picklable σ fresh f).1.qualname = f.qualname) ∧
    ((make_picklable σ fresh f).1.defaults = f.defaults) ∧
    ((make_picklable σ fresh f).1.kwdefaults = f.kwdefaults) ∧
    ((make_picklable σ fresh f).1.annots = f.annots) ∧
    ((make_picklable σ fresh f).1.closure = f.closure) ∧
    ((make_picklable σ fresh f).1.module = "__mp_main__") ∧
    ((make_picklable σ fresh f).1.globalsRef = fresh) :=
  ⟨rfl, rfl, rfl, rfl, rfl, rfl, rfl, rfl, rfl⟩

/-! Claim C10: the handle guard of copy_file_to_container. -/

/-- C10.  With an absent container handle, copy_file_to_container raises
RuntimeError with the exact message before any bytes are transferred (the
trace is empty, in particular holding no archive upload); and whenever it
raises ContainerPrepareError, the handle was present and the move of the
transferred file failed, with the move output in the message. -/
theorem copy_file_handle_guard (env : ContainerEnv) (content path : String) :
    (env.containerPresent = false →
      copy_file_to_container env content path =
        (.error (.runtimeError "Container is not running."), [])) ∧
    (∀ m evs,
      copy_file_to_container env content path =
        (.error (.containerPrepare m), evs) →
      env.containerPresent = true ∧
      (env.exec ["mv", "/tmp/transfer.txt", path]).exit_code ≠ 0 ∧
      m = "Failed to move temporary file to destination: " ++
        (env.exec ["mv", "/tmp/transfer.txt", path]).output ∧
      evs = [.putArchive "/tmp",
        .execCmd ["mv", "/tmp/transfer.txt", path]]) := by
  constructor
  · intro h
    simp [copy_file_to_container, h]
  · intro m evs h
    by_cases hp : env.containerPresent = false
    · simp [copy_file_to_container, hp] at h
    · simp at hp
      by_cases hm : (env.exec ["mv", "/tmp/transfer.txt", path]).exit_code = 0
      · simp [copy_file_to_container, hp, hm] at h
      · simp [copy_file_to_container, hp, hm] at h
        exact ⟨hp, hm, h.1.symm, h.2.symm⟩

/-- Witness for C10: the absent-handle container gives the RuntimeError
with no transfer, and the read-only container gives the
ContainerPrepareError from the failed move. -/
theorem copy_file_handle_guard_witness :
    copy_file_to_container absentEnv "content" "/tmp/rpyc_server.py" =
      (.error (.runtimeError "Container is not running."), []) ∧
    ((mvFailEnv.exec ["mv", "/tmp/transfer.txt", "/tmp/rpyc_server.py"]).exit_code ≠ 0 ∧
      "Failed to move temporary file to destination: mv: read-only file system" =
        "Failed to move temporary file to destination: " ++
          (mvFailEnv.exec ["mv", "/tmp/transfer.txt", "/tmp/rpyc_server.py"]).output) :=
  ⟨(copy_file_handle_guard absentEnv "content" "/tmp/rpyc_server.py").1 rfl,
   let h := (copy_file_handle_guard mvFailEnv "content"
     "/tmp/rpyc_server.py").2
     "Failed to move temporary file to destination: mv: read-only file system"
     [.putArchive "/tmp", .execCmd ["mv", "/tmp/transfer.txt", "/tmp/rpyc_server.py"]]
     rfl
   ⟨h.2.1, h.2.2.1⟩⟩

/-! Claim C6: interpreter location.  The probe order and first-found-wins
behavior hold, but the exhaustion failure is a ContainerPrepareError, not
the builtin EnvironmentError named by the claim. -/

/-- C6 counterexample.  In a container where neither candidate is found,
the locate stage fails with ContainerPrepareError carrying the exhaustion
message, and the failure is not an EnvironmentError. -/
theorem locate_interpreter_error_class :
    (find_one_of noPythonEnv ["python3", "python"]).1 =
      .error (.containerPrepare
        "None of [python3, python] found in the container") ∧
    errIsEnvironment (find_one_of noPythonEnv ["python3", "python"]).1 =
      false := ⟨rfl, rfl⟩

/-- C6 amended.  The locate stage probes python3 then python in that
order; the first candidate found wins, without probing the rest; and when
none is found the stage fails with ContainerPrepareError. -/
theorem locate_interpreter_probe_order (env : ContainerEnv) :
    ((env.exec ["which", "python3"]).exit_code = 0 →
      find_one_of env ["python3", "python"] =
        (.ok (pyStrip (env.exec ["which", "python3"]).output),
         [.execCmd ["which", "python3"]])) ∧
    ((env.exec ["which", "python3"]).exit_code ≠ 0 →
      (env.exec ["which", "python"]).exit_code = 0 →
      find_one_of env ["python3", "python"] =
        (.ok (pyStrip (env.exec ["which", "python"]).output),
         [.execCmd ["which", "python3"], .execCmd ["which", "python"]])) ∧
    ((env.exec ["which", "python3"]).exit_code ≠ 0 →
      (env.exec ["which", "python"]).exit_code ≠ 0 →
      find_one_of env ["python3", "python"] =
        (.error (.containerPrepare
          "None of [python3, python] found in the container"),
         [.execCmd ["which", "python3"], .execCmd ["which", "python"]])) := by
  refine ⟨fun h3 => ?_, fun h3 hp => ?_, fun h3 hp => ?_⟩
  · simp [find_one_of, findOneOfGo, find_binary, h3]
  · simp [find_one_of, findOneOfGo, find_binary, h3, hp]
  · simp [find_one_of, findOneOfGo, find_binary, h3, hp]
    rfl

/-- Witness for C6: with a healthy container the first probe finds
python3 and the second candidate is never probed. -/
theorem locate_interpreter_probe_order_witness :
    find_one_of demoEnv ["python3", "python"] =
      (.ok "/usr/bin/python3", [.execCmd ["which", "python3"]]) := by
  have h := (locate_interpreter_probe_order demoEnv).1 (by decide)
  simpa using h

/-! Claim C5: timeout configuration.  The precedence marker over ini over
default holds and the image and build paths forward the caller timeout to
the connection, but the factory path of the source calls
bootstrap_container without the timeout argument, so the connection used
for the remote call there carries the default 30 regardless of the
caller-supplied value. -/

/-- C5.  At the failing input, a factory spec with a caller-supplied
timeout of 60: the timeout resolution itself is correct (marker wins over
ini, ini over the default), the image and build paths run the remote call
on a connection configured with 60, but the factory path runs it on a
connection configured with 30 and not 60. -/
theorem factory_timeout_not_forwarded :
    get_timeout (some [60]) .valueError = 60 ∧
    get_timeout (some [60]) (.intVal 45) = 60 ∧
    get_timeout none (.intVal 45) = 45 ∧
    get_timeout none .valueError = 30 ∧
    get_timeout none .falsy = 30 ∧
    get_timeout (some []) (.intVal 45) = 45 ∧
    Event.runPickledCall 60 ∈
      (run_test_in_container (demoOrch .normal) (.imageSpec "python:alpine")
        60).2 ∧
    Event.runPickledCall 60 ∈
      (run_test_in_container (demoOrch .normal) (.buildSpec "." "app:test")
        60).2 ∧
    Event.runPickledCall 30 ∈
      (run_test_in_container (demoOrch .normal) (.factorySpec 7) 60).2 ∧
    Event.runPickledCall 60 ∉
      (run_test_in_container (demoOrch .normal) (.factorySpec 7) 60).2 := by
  refine ⟨rfl, rfl, rfl, rfl, rfl, rfl, ?_, ?_, ?_, ?_⟩ <;> decide

/-! Claim C7: guaranteed teardown with nested scopes. -/

/-- C7.  For every orchestration environment, every spec variant and every
timeout, the trace of one test invocation ends with the teardown of the
acquired container scope: the container exit event is the last event for
an image spec, the container exit followed by the build-image exit for a
build spec (container scope nested inside image scope), and the factory
scope exit for a factory spec.  Every connection event and the remote call
itself therefore precede teardown on every path, including failing ones.
Moreover, when the remote function raises, the caller observes the same
exception type and message while the teardown above still happens. -/
theorem container_teardown_on_every_path (env : OrchEnv) (t : Int) :
    (∀ img, ∃ l, (run_test_in_container env (.imageSpec img) t).2 =
      l ++ [.exitContainer img]) ∧
    (∀ p tg, ∃ l, (run_test_in_container env (.buildSpec p tg) t).2 =
      l ++ [.exitContainer tg, .exitImage p tg]) ∧
    (∀ fac, ∃ l, (run_test_in_container env (.factorySpec fac) t).2 =
      l ++ [.exitFactory fac]) ∧
    (∀ img ty m conn,
      env.remote = .raised ty m →
      (bootstrap_container env.cont env.local_ver t).1 = .ok conn →
      (run_test_in_container env (.imageSpec img) t).1 =
        .error (.remote ty m)) := by
  refine ⟨fun img => ?_, fun p tg => ?_, fun fac => ?_,
    fun img ty m conn hr hb => ?_⟩
  · rcases h : runInStartedContainer env t with ⟨r1, evs⟩
    exact ⟨.enterContainer img :: evs, by
      simp [run_test_in_container, h]⟩
  · rcases h : runInStartedContainer env t with ⟨r1, evs⟩
    exact ⟨.enterImage p tg :: .enterContainer tg :: evs, by
      simp [run_test_in_container, h]⟩
  · rcases h : bootstrap_container env.cont env.local_ver with ⟨r1, evs⟩
    cases r1 with
    | error e =>
      exact ⟨.enterFactory fac :: evs.map Prod.snd, by
        simp [run_test_in_container, h]⟩
    | ok conn =>
      rcases h2 : run_pickled conn env.remote with ⟨r2, evs2⟩
      exact ⟨.enterFactory fac :: (evs.map Prod.snd ++ evs2), by
        simp [run_test_in_container, h, h2]⟩
  · rcases h : bootstrap_container env.cont env.local_ver t with ⟨r1, evs⟩
    cases r1 with
    | error e => rw [h] at hb; exact absurd hb (by simp)
    | ok conn2 =>
      simp [run_test_in_container, runInStartedContainer, h, run_pickled, hr]

/-- Witness for C7: the remote body raises AssertionError with message
boom inside the healthy container; the caller observes exactly that
failure and the trace still ends by tearing the container down. -/
theorem container_teardown_on_every_path_witness :
    (run_test_in_container (demoOrch (.raised "AssertionError" "boom"))
      (.imageSpec "python:alpine") 30).1 =
      .error (.remote "AssertionError" "boom") ∧
    (∃ l, (run_test_in_container (demoOrch (.raised "AssertionError" "boom"))
      (.imageSpec "python:alpine") 30).2 =
      l ++ [.exitContainer "python:alpine"]) :=
  ⟨(container_teardown_on_every_path
      (demoOrch (.raised "AssertionError" "boom")) 30).2.2.2
      "python:alpine" "AssertionError" "boom" ⟨0, 30⟩ rfl rfl,
   (container_teardown_on_every_path
      (demoOrch (.raised "AssertionError" "boom")) 30).1 "python:alpine"⟩

/-! Claim C4: the connection retry loop. -/

theorem countAttempts_connectGo_le (env : ContainerEnv) (host : String)
    (port : Nat) (timeout : Int) :
    ∀ (n idx : Nat) (le : Option PyExc),
      countAttempts (connectGo env host port timeout n idx le).2 ≤ n := by
  intro n
  induction n with
  | zero => intro idx le; simp [connectGo, countAttempts]
  | succ n ih =>
    intro idx le
    cases h : env.attempt idx with
    | ok => simp [connectGo, h, countAttempts]
    | echoMismatch => simp [connectGo, h, countAttempts]
    | raiseExc e =>
      by_cases hc : caughtByRetry e = true
      · have := ih (idx + 1) (some e)
        simp [connectGo, h, hc, countAttempts] at this ⊢
        omega
      · simp at hc
        simp [connectGo, h, hc, countAttempts]

theorem countAttempts_blocks (host : String) (port : Nat) :
    ∀ n, countAttempts
      (List.flatten (List.replicate n (transientBlock host port))) = n := by
  intro n
  induction n with
  | zero => rfl
  | succ n ih =>
    simp only [List.replicate_succ, List.flatten_cons]
    simp [countAttempts, transientBlock] at ih ⊢

theorem connectGo_all_transient (env : ContainerEnv) (host : String)
    (port : Nat) (timeout : Int) :
    ∀ (n idx : Nat) (le : Option PyExc),
      (∀ i < n, caughtOutcome (env.attempt (idx + i)) = true) →
      (∃ m, (connectGo env host port timeout n idx le).1 =
        .error (.containerPrepare m)) ∧
      (connectGo env host port timeout n idx le).2 =
        List.flatten (List.replicate n (transientBlock host port)) := by
  intro n
  induction n with
  | zero =>
    intro idx le _
    exact ⟨⟨_, rfl⟩, rfl⟩
  | succ n ih =>
    intro idx le hall
    have h0 := hall 0 (Nat.succ_pos n)
    cases h : env.attempt idx with
    | ok => rw [Nat.add_zero, h] at h0; simp [caughtOutcome] at h0
    | echoMismatch => rw [Nat.add_zero, h] at h0; simp [caughtOutcome] at h0
    | raiseExc e =>
      rw [Nat.add_zero, h] at h0
      have hc : caughtByRetry e = true := h0
      have hrest : ∀ i < n, caughtOutcome (env.attempt (idx + 1 + i)) = true := by
        intro i hi
        have := hall (i + 1) (by omega)
        rwa [show idx + (i + 1) = idx + 1 + i by omega] at this
      obtain ⟨⟨m, hm⟩, htr⟩ := ih (idx + 1) (some e) hrest
      refine ⟨⟨m, ?_⟩, ?_⟩
      · simpa [connectGo, h, hc] using hm
      · simp only [List.replicate_succ, List.flatten_cons]
        simp [connectGo, h, hc, htr, transientBlock]

theorem connectGo_first_decisive (env : ContainerEnv) (host : String)
    (port : Nat) (timeout : Int) :
    ∀ (k n idx : Nat) (le : Option PyExc), k < n →
      (∀ i < k, caughtOutcome (env.attempt (idx + i)) = true) →
      ((env.attempt (idx + k) = .ok →
        connectGo env host port timeout n idx le =
          (.ok ⟨idx + k, timeout⟩,
           List.flatten (List.replicate k (transientBlock host port)) ++
             [.connectAttempt host port])) ∧
       (env.attempt (idx + k) = .echoMismatch →
        connectGo env host port timeout n idx le =
          (.error (.containerPrepare
            "Failed to communicate with rpyc server on the container."),
           List.flatten (List.replicate k (transientBlock host port)) ++
             [.connectAttempt host port])) ∧
       (∀ e, env.attempt (idx + k) = .raiseExc e → caughtByRetry e = false →
        connectGo env host port timeout n idx le =
          (.error (.uncaughtExc e),
           List.flatten (List.replicate k (transientBlock host port)) ++
             [.connectAttempt host port]))) := by
  intro k
  induction k with
  | zero =>
    intro n idx le hn _
    obtain ⟨n2, rfl⟩ : ∃ n2, n = n2 + 1 := ⟨n - 1, by omega⟩
    refine ⟨fun h => ?_, fun h => ?_, fun e h hc => ?_⟩
    · rw [Nat.add_zero] at h
      simp [connectGo, h]
    · rw [Nat.add_zero] at h
      simp [connectGo, h]
    · rw [Nat.add_zero] at h
      simp [connectGo, h, hc]
  | succ k ih =>
    intro n idx le hn hall
    obtain ⟨n2, rfl⟩ : ∃ n2, n = n2 + 1 := ⟨n - 1, by omega⟩
    have h0 := hall 0 (Nat.succ_pos k)
    have hrest : ∀ i < k, caughtOutcome (env.attempt (idx + 1 + i)) = true := by
      intro i hi
      have := hall (i + 1) (by omega)
      rwa [show idx + (i + 1) = idx + 1 + i by omega] at this
    have hshift : idx + (k + 1) = idx + 1 + k := by omega
    cases h : env.attempt idx with
    | ok => rw [Nat.add_zero, h] at h0; simp [caughtOutcome] at h0
    | echoMismatch => rw [Nat.add_zero, h] at h0; simp [caughtOutcome] at h0
    | raiseExc e =>
      rw [Nat.add_zero, h] at h0
      have hc : caughtByRetry e = true := h0
      obtain ⟨ihok, ihecho, ihexc⟩ :=
        ih n2 (idx + 1) (some e) (by omega) hrest
      refine ⟨fun ha => ?_, fun ha => ?_, fun e2 ha hc2 => ?_⟩
      · rw [hshift] at ha
        have := ihok ha
        rw [hshift]
        simp only [List.replicate_succ, List.flatten_cons]
        simp [connectGo, h, hc, this, transientBlock]
      · rw [hshift] at ha
        have := ihecho ha
        simp only [List.replicate_succ, List.flatten_cons]
        simp [connectGo, h, hc, this, transientBlock]
      · rw [hshift] at ha
        have := ihexc e2 ha hc2
        simp only [List.replicate_succ, List.flatten_cons]
        simp [connectGo, h, hc, this, transientBlock]

/-- C4 counterexample.  The first connection attempt raises an OSError
that is neither connection-refused nor transport-reset nor end-of-stream
(a permission failure); the code does not fail immediately but sleeps and
retries, and the second attempt succeeds after two recorded attempts. -/
theorem connect_retries_on_other_oserror :
    osRetryEnv.attempt 0 = .raiseExc (.otherOSError "Permission denied") ∧
    connect_with_retries osRetryEnv "localhost" 40000 30 =
      (.ok ⟨1, 30⟩,
       [.connectAttempt "localhost" 40000, .sleepFor CONNECT_DELAY,
        .connectAttempt "localhost" 40000]) ∧
    countAttempts (connect_with_retries osRetryEnv "localhost" 40000 30).2 =
      2 := ⟨rfl, rfl, rfl⟩

/-- C4 amended.  The connection stage attempts to connect at most 10
times with the fixed 0.5-second delay after each transiently failed
attempt, retrying exactly on the exception classes of the except tuple,
which are end-of-stream and the OS-level error class containing
connection-refused and transport-reset; when every attempt fails
transiently it fails with ContainerPrepareError after exactly 10 attempts;
and the first attempt whose outcome is not a caught transient error is
decisive: a success returns the connection, a liveness-echo mismatch fails
with ContainerPrepareError, and an uncaught exception propagates, in each
case with no further attempts. -/
theorem connect_retry_policy (env : ContainerEnv) (host : String)
    (port : Nat) (timeout : Int) :
    countAttempts (connect_with_retries env host port timeout).2 ≤
      CONNECT_RETRIES ∧
    ((∀ i < CONNECT_RETRIES, caughtOutcome (env.attempt i) = true) →
      (∃ m, (connect_with_retries env host port timeout).1 =
        .error (.containerPrepare m)) ∧
      countAttempts (connect_with_retries env host port timeout).2 =
        CONNECT_RETRIES) ∧
    (∀ k, k < CONNECT_RETRIES →
      (∀ i < k, caughtOutcome (env.attempt i) = true) →
      ((env.attempt k = .ok →
        connect_with_retries env host port timeout =
          (.ok ⟨k, timeout⟩,
           List.flatten (List.replicate k (transientBlock host port)) ++
             [.connectAttempt host port])) ∧
       (env.attempt k = .echoMismatch →
        connect_with_retries env host port timeout =
          (.error (.containerPrepare
            "Failed to communicate with rpyc server on the container."),
           List.flatten (List.replicate k (transientBlock host port)) ++
             [.connectAttempt host port])) ∧
       (∀ e, env.attempt k = .raiseExc e → caughtByRetry e = false →
        connect_with_retries env host port timeout =
          (.error (.uncaughtExc e),
           List.flatten (List.replicate k (transientBlock host port)) ++
             [.connectAttempt host port])))) := by
  refine ⟨countAttempts_connectGo_le env host port timeout
    CONNECT_RETRIES 0 none, fun hall => ?_, fun k hk hall => ?_⟩
  · have h := connectGo_all_transient env host port timeout
      CONNECT_RETRIES 0 none (by simpa using hall)
    exact ⟨h.1, by rw [connect_with_retries, h.2,
      countAttempts_blocks host port]⟩
  · have h := connectGo_first_decisive env host port timeout
      k CONNECT_RETRIES 0 none hk (by simpa using hall)
    simpa using h

/-- Witness for C4: with every attempt refused, bootstrap fails with
ContainerPrepareError after exactly the retry budget of attempts. -/
theorem connect_retry_policy_witness :
    (∃ m, (connect_with_retries neverEnv "localhost" 40000 30).1 =
      .error (.containerPrepare m)) ∧
    countAttempts (connect_with_retries neverEnv "localhost" 40000 30).2 =
      CONNECT_RETRIES :=
  (connect_retry_policy neverEnv "localhost" 40000 30).2.1 (by decide)

/-! Claim C3: bootstrap stage order and terminality. -/

theorem pairwise_le_const {l : List Nat} {c : Nat} (h : ∀ x ∈ l, x = c) :
    l.Pairwise (· ≤ ·) := by
  induction l with
  | nil => exact List.Pairwise.nil
  | cons x rest ih =>
    refine List.Pairwise.cons (fun y hy => ?_) (ih fun y hy => h y (by simp [hy]))
    rw [h x (by simp), h y (by simp [hy])]

theorem mem_tagStage_fst {q : Nat × Event} {s : Nat} {evs : List Event}
    (h : q ∈ tagStage s evs) : q.1 = s := by
  simp only [tagStage, List.mem_map] at h
  obtain ⟨e, _, rfl⟩ := h
  rfl

theorem tag_chain (s : Nat) (evs : List Event) (rest : List (Nat × Event))
    (hp : (rest.map Prod.fst).Pairwise (· ≤ ·))
    (hb : ∀ q ∈ rest, s ≤ q.1) :
    (((tagStage s evs ++ rest).map Prod.fst).Pairwise (· ≤ ·)) ∧
    (∀ q ∈ tagStage s evs ++ rest, s ≤ q.1) := by
  constructor
  · rw [List.map_append]
    refine List.pairwise_append.mpr ⟨?_, hp, ?_⟩
    · exact pairwise_le_const (fun x hx => by
        obtain ⟨q, hq, rfl⟩ := List.mem_map.mp hx
        exact mem_tagStage_fst hq)
    · intro x hx y hy
      obtain ⟨q, hq, rfl⟩ := List.mem_map.mp hx
      obtain ⟨q2, hq2, rfl⟩ := List.mem_map.mp hy
      rw [mem_tagStage_fst hq]
      exact hb q2 hq2
  · intro q hq
    rcases List.mem_append.mp hq with h1 | h1
    · rw [mem_tagStage_fst h1]
    · exact hb q h1

theorem countAttempts_append (l1 l2 : List Event) :
    countAttempts (l1 ++ l2) = countAttempts l1 + countAttempts l2 :=
  List.countP_append _ _ _

theorem tagStage_map_snd (s : Nat) (evs : List Event) :
    (tagStage s evs).map Prod.snd = evs := by
  simp [tagStage]

theorem countAttempts_find_binary {env : ContainerEnv} {n : String}
    {r : Except PyError String} {evs : List Event}
    (h : find_binary env n = (r, evs)) : countAttempts evs = 0 := by
  simp only [find_binary] at h
  split at h <;> (injection h with h1 h2; subst h2; rfl)

theorem countAttempts_findOneOfGo (env : ContainerEnv) :
    ∀ names, countAttempts (findOneOfGo env names).2 = 0 := by
  intro names
  induction names with
  | nil => rfl
  | cons n rest ih =>
    rcases h : find_binary env n with ⟨r, evs⟩
    have h0 := countAttempts_find_binary h
    cases r with
    | ok p => simp [findOneOfGo, h, h0]
    | error e =>
      simp only [findOneOfGo, h]
      rw [countAttempts_append, h0, ih]

theorem countAttempts_find_one_of {env : ContainerEnv}
    {names : List String} {r : Except PyError String} {evs : List Event}
    (h : find_one_of env names = (r, evs)) : countAttempts evs = 0 := by
  unfold find_one_of at h
  rcases hg : findOneOfGo env names with ⟨ro, evso⟩
  have h0 := countAttempts_findOneOfGo env names
  rw [hg] at h h0
  cases ro with
  | none => injection h with h1 h2; subst h2; exact h0
  | some p => injection h with h1 h2; subst h2; exact h0

theorem countAttempts_run_or_fail {env : ContainerEnv}
    {cmd : List String} {msg : String} {r : Except PyError Unit}
    {evs : List Event} (h : run_or_fail env cmd msg = (r, evs)) :
    countAttempts evs = 0 := by
  simp only [run_or_fail] at h
  split at h <;> (injection h with h1 h2; subst h2; rfl)

theorem countAttempts_check_python_version {env : ContainerEnv}
    {python local_ver : String} {r : Except PyError Unit}
    {evs : List Event}
    (h : check_python_version env python local_ver = (r, evs)) :
    countAttempts evs = 0 := by
  simp only [check_python_version] at h
  split at h
  · injection h with h1 h2; subst h2; rfl
  · split at h <;> (injection h with h1 h2; subst h2; rfl)

theorem countAttempts_install_deps {env : ContainerEnv} {python : String}
    {r : Except PyError String} {evs : List Event}
    (h : install_deps env python = (r, evs)) : countAttempts evs = 0 := by
  simp only [install_deps] at h
  split at h <;>
    (rename_i heq
     injection h with h1 h2
     subst h2
     have h0 := countAttempts_run_or_fail heq
     simpa [countAttempts, List.countP_cons] using h0)

theorem countAttempts_copy_file {env : ContainerEnv}
    {content path : String} {r : Except PyError Unit} {evs : List Event}
    (h : copy_file_to_container env content path = (r, evs)) :
    countAttempts evs = 0 := by
  simp only [copy_file_to_container] at h
  split at h
  · injection h with h1 h2; subst h2; rfl
  · split at h <;> (injection h with h1 h2; subst h2; rfl)

/-- C3.  Bootstrap runs its stages in the fixed order locate interpreter
(1), version check (2), dependency install (3), server injection and
launch (4), connect and liveness (5): for every environment the stage
labels along the trace are monotonically nondecreasing.  It is terminal on
the first stage failure: a locate failure ends the trace within stage 1, a
version-check failure within stage 2, an install failure within stage 3,
and a stage-4 failure, whether of the server-script file transfer or of
the server launch, ends the trace within stage 4 with zero connection
attempts, each case propagating that stage error.  In particular, when the
container interpreter reports a major.minor version different from the
host, the bootstrap fails with the version-mismatch ContainerPrepareError
and the trace holds no stage-3 event, so no dependency install is
attempted. -/
theorem bootstrap_stage_order (env : ContainerEnv) (local_ver : String)
    (t : Int) :
    (((bootstrap_container env local_ver t).2.map Prod.fst).Pairwise
      (· ≤ ·)) ∧
    (∀ e evs1, find_one_of env ["python3", "python"] = (.error e, evs1) →
      bootstrap_container env local_ver t = (.error e, tagStage 1 evs1)) ∧
    (∀ python evs1 e evs2,
      find_one_of env ["python3", "python"] = (.ok python, evs1) →
      check_python_version env python local_ver = (.error e, evs2) →
      bootstrap_container env local_ver t =
        (.error e, tagStage 1 evs1 ++ tagStage 2 evs2)) ∧
    (∀ python evs1 evs2 e evs3,
      find_one_of env ["python3", "python"] = (.ok python, evs1) →
      check_python_version env python local_ver = (.ok (), evs2) →
      install_deps env python = (.error e, evs3) →
      bootstrap_container env local_ver t =
        (.error e, tagStage 1 evs1 ++ tagStage 2 evs2 ++ tagStage 3 evs3)) ∧
    (∀ python evs1,
      find_one_of env ["python3", "python"] = (.ok python, evs1) →
      (env.exec [python, "-c", version_script]).exit_code = 0 →
      pyStrip (env.exec [python, "-c", version_script]).output ≠ local_ver →
      bootstrap_container env local_ver t =
        (.error (.containerPrepare
          ("Python version mismatch: host has " ++ local_ver ++
            " but container has " ++
            pyStrip (env.exec [python, "-c", version_script]).output ++
            ". Matching major.minor versions are required for pickle " ++
            "compatibility.")),
         tagStage 1 evs1 ++
           tagStage 2 [.execCmd [python, "-c", version_script]]) ∧
      (∀ q ∈ (bootstrap_container env local_ver t).2, q.1 < 3)) ∧
    (∀ python evs1 evs2 python2 evs3 e evs4,
      find_one_of env ["python3", "python"] = (.ok python, evs1) →
      check_python_version env python local_ver = (.ok (), evs2) →
      install_deps env python = (.ok python2, evs3) →
      copy_file_to_container env RPYC_SERVER_SCRIPT "/tmp/rpyc_server.py" =
        (.error e, evs4) →
      bootstrap_container env local_ver t =
        (.error e, tagStage 1 evs1 ++ tagStage 2 evs2 ++ tagStage 3 evs3 ++
          tagStage 4 evs4) ∧
      (∀ q ∈ (bootstrap_container env local_ver t).2, q.1 < 5) ∧
      countAttempts ((bootstrap_container env local_ver t).2.map
        Prod.snd) = 0) ∧
    (∀ python evs1 evs2 python2 evs3 evs4 e evs5,
      find_one_of env ["python3", "python"] = (.ok python, evs1) →
      check_python_version env python local_ver = (.ok (), evs2) →
      install_deps env python = (.ok python2, evs3) →
      copy_file_to_container env RPYC_SERVER_SCRIPT "/tmp/rpyc_server.py" =
        (.ok (), evs4) →
      run_or_fail env ["sh", "-c", python2 ++ " /tmp/rpyc_server.py &"]
        "Failed to start rpyc server on the container." =
          (.error e, evs5) →
      bootstrap_container env local_ver t =
        (.error e, tagStage 1 evs1 ++ tagStage 2 evs2 ++ tagStage 3 evs3 ++
          tagStage 4 (evs4 ++ evs5)) ∧
      (∀ q ∈ (bootstrap_container env local_ver t).2, q.1 < 5) ∧
      countAttempts ((bootstrap_container env local_ver t).2.map
        Prod.snd) = 0) := by
  refine ⟨?_, ?_, ?_, ?_, ?_, ?_, ?_⟩
  · rcases h1 : find_one_of env ["python3", "python"] with ⟨r1, evs1⟩
    cases r1 with
    | error e =>
      simp only [bootstrap_container, h1]
      simpa using (tag_chain 1 evs1 [] (by simp) (by simp)).1
    | ok python =>
      rcases h2 : check_python_version env python local_ver with ⟨r2, evs2⟩
      cases r2 with
      | error e =>
        simp only [bootstrap_container, h1, h2]
        have c2 := tag_chain 2 evs2 [] (by simp) (by simp)
        rw [List.append_nil] at c2
        exact (tag_chain 1 evs1 _ c2.1
          (fun q hq => Nat.le_trans (by omega) (c2.2 q hq))).1
      | ok u =>
        rcases h3 : install_deps env python with ⟨r3, evs3⟩
        cases r3 with
        | error e =>
          simp only [bootstrap_container, h1, h2, h3, List.append_assoc]
          have c3 := tag_chain 3 evs3 [] (by simp) (by simp)
          rw [List.append_nil] at c3
          have c2 := tag_chain 2 evs2 _ c3.1
            (fun q hq => Nat.le_trans (by omega) (c3.2 q hq))
          exact (tag_chain 1 evs1 _ c2.1
            (fun q hq => Nat.le_trans (by omega) (c2.2 q hq))).1
        | ok python2 =>
          rcases h4 : copy_file_to_container env RPYC_SERVER_SCRIPT
              "/tmp/rpyc_server.py" with ⟨r4, evs4⟩
          cases r4 with
          | error e =>
            simp only [bootstrap_container, h1, h2, h3, h4,
              List.append_assoc]
            have c4 := tag_chain 4 evs4 [] (by simp) (by simp)
            rw [List.append_nil] at c4
            have c3 := tag_chain 3 evs3 _ c4.1
              (fun q hq => Nat.le_trans (by omega) (c4.2 q hq))
            have c2 := tag_chain 2 evs2 _ c3.1
              (fun q hq => Nat.le_trans (by omega) (c3.2 q hq))
            exact (tag_chain 1 evs1 _ c2.1
              (fun q hq => Nat.le_trans (by omega) (c2.2 q hq))).1
          | ok u4 =>
            rcases h5 : run_or_fail env
                ["sh", "-c", python2 ++ " /tmp/rpyc_server.py &"]
                "Failed to start rpyc server on the container." with ⟨r5, evs5⟩
            cases r5 with
            | error e =>
              simp only [bootstrap_container, h1, h2, h3, h4, h5,
                List.append_assoc]
              have c4 := tag_chain 4 (evs4 ++ evs5) [] (by simp) (by simp)
              rw [List.append_nil] at c4
              have c3 := tag_chain 3 evs3 _ c4.1
                (fun q hq => Nat.le_trans (by omega) (c4.2 q hq))
              have c2 := tag_chain 2 evs2 _ c3.1
                (fun q hq => Nat.le_trans (by omega) (c3.2 q hq))
              exact (tag_chain 1 evs1 _ c2.1
                (fun q hq => Nat.le_trans (by omega) (c2.2 q hq))).1
            | ok u5 =>
              simp only [bootstrap_container, h1, h2, h3, h4, h5,
                List.append_assoc]
              have c5 := tag_chain 5
                (connect_with_retries env env.hostIp
                  (env.exposedPort RPYC_PORT) t).2 [] (by simp) (by simp)
              rw [List.append_nil] at c5
              have c4 := tag_chain 4 (evs4 ++ evs5) _ c5.1
                (fun q hq => Nat.le_trans (by omega) (c5.2 q hq))
              have c3 := tag_chain 3 evs3 _ c4.1
                (fun q hq => Nat.le_trans (by omega) (c4.2 q hq))
              have c2 := tag_chain 2 evs2 _ c3.1
                (fun q hq => Nat.le_trans (by omega) (c3.2 q hq))
              exact (tag_chain 1 evs1 _ c2.1
                (fun q hq => Nat.le_trans (by omega) (c2.2 q hq))).1
  · intro e evs1 h1
    simp [bootstrap_container, h1]
  · intro python evs1 e evs2 h1 h2
    simp [bootstrap_container, h1, h2]
  · intro python evs1 evs2 e evs3 h1 h2 h3
    simp [bootstrap_container, h1, h2, h3]
  · intro python evs1 h1 hexit hver
    have h2 : check_python_version env python local_ver =
        (.error (.containerPrepare
          ("Python version mismatch: host has " ++ local_ver ++
            " but container has " ++
            pyStrip (env.exec [python, "-c", version_script]).output ++
            ". Matching major.minor versions are required for pickle " ++
            "compatibility.")),
         [.execCmd [python, "-c", version_script]]) := by
      simp [check_python_version, hexit, hver]
    have hboot : bootstrap_container env local_ver t =
        (.error (.containerPrepare
          ("Python version mismatch: host has " ++ local_ver ++
            " but container has " ++
            pyStrip (env.exec [python, "-c", version_script]).output ++
            ". Matching major.minor versions are required for pickle " ++
            "compatibility.")),
         tagStage 1 evs1 ++
           tagStage 2 [.execCmd [python, "-c", version_script]]) := by
      simp [bootstrap_container, h1, h2]
    refine ⟨hboot, ?_⟩
    rw [hboot]
    intro q hq
    rcases List.mem_append.mp hq with hm | hm
    · rw [mem_tagStage_fst hm]; omega
    · rw [mem_tagStage_fst hm]; omega
  · intro python evs1 evs2 python2 evs3 e evs4 h1 h2 h3 h4
    have hb : bootstrap_container env local_ver t =
        (.error e, tagStage 1 evs1 ++ tagStage 2 evs2 ++ tagStage 3 evs3 ++
          tagStage 4 evs4) := by
      simp [bootstrap_container, h1, h2, h3, h4]
    refine ⟨hb, ?_, ?_⟩
    · rw [hb]
      intro q hq
      rcases List.mem_append.mp hq with hq | hq
      · rcases List.mem_append.mp hq with hq | hq
        · rcases List.mem_append.mp hq with hq | hq
          · rw [mem_tagStage_fst hq]; omega
          · rw [mem_tagStage_fst hq]; omega
        · rw [mem_tagStage_fst hq]; omega
      · rw [mem_tagStage_fst hq]; omega
    · rw [hb]
      simp only [List.map_append, tagStage_map_snd, countAttempts_append]
      rw [countAttempts_find_one_of h1,
        countAttempts_check_python_version h2,
        countAttempts_install_deps h3, countAttempts_copy_file h4]
  · intro python evs1 evs2 python2 evs3 evs4 e evs5 h1 h2 h3 h4 h5
    have hb : bootstrap_container env local_ver t =
        (.error e, tagStage 1 evs1 ++ tagStage 2 evs2 ++ tagStage 3 evs3 ++
          tagStage 4 (evs4 ++ evs5)) := by
      simp [bootstrap_container, h1, h2, h3, h4, h5]
    refine ⟨hb, ?_, ?_⟩
    · rw [hb]
      intro q hq
      rcases List.mem_append.mp hq with hq | hq
      · rcases List.mem_append.mp hq with hq | hq
        · rcases List.mem_append.mp hq with hq | hq
          · rw [mem_tagStage_fst hq]; omega
          · rw [mem_tagStage_fst hq]; omega
        · rw [mem_tagStage_fst hq]; omega
      · rw [mem_tagStage_fst hq]; omega
    · rw [hb]
      simp only [List.map_append, tagStage_map_snd, countAttempts_append]
      rw [countAttempts_find_one_of h1,
        countAttempts_check_python_version h2,
        countAttempts_install_deps h3, countAttempts_copy_file h4,
        countAttempts_run_or_fail h5]

/-- Witness for C3: a container whose interpreter reports 3.9 against a
3.12 host fails with the version-mismatch error after exactly the locate
and version-check commands, with no stage-3 install event; and a
container whose file move fails during server injection ends bootstrap
within stage 4 with zero connection attempts. -/
theorem bootstrap_stage_order_witness :
    (bootstrap_container mismatchEnv "3.12" 30 =
      (.error (.containerPrepare
        ("Python version mismatch: host has " ++ "3.12" ++
          " but container has " ++
          pyStrip (mismatchEnv.exec
            ["/usr/bin/python3", "-c", version_script]).output ++
          ". Matching major.minor versions are required for pickle " ++
          "compatibility.")),
       tagStage 1 [.execCmd ["which", "python3"]] ++
         tagStage 2 [.execCmd ["/usr/bin/python3", "-c", version_script]]) ∧
    (∀ q ∈ (bootstrap_container mismatchEnv "3.12" 30).2, q.1 < 3)) ∧
    (∀ q ∈ (bootstrap_container mvFailEnv "3.12" 30).2, q.1 < 5) ∧
    countAttempts ((bootstrap_container mvFailEnv "3.12" 30).2.map
      Prod.snd) = 0 :=
  have h4 := (bootstrap_stage_order mvFailEnv "3.12" 30).2.2.2.2.2.1
    "/usr/bin/python3" [.execCmd ["which", "python3"]]
    [.execCmd ["/usr/bin/python3", "-c", version_script]]
    (VENV_DIR ++ "/bin/python")
    [.execCmd ["/usr/bin/python3", "-m", "venv", VENV_DIR],
     .execCmd [VENV_DIR ++ "/bin/python", "-m", "pip", "install",
       "cloudpickle", "rpyc", "pytest"]]
    (.containerPrepare
      "Failed to move temporary file to destination: mv: read-only file system")
    [.putArchive "/tmp", .execCmd ["mv", "/tmp/transfer.txt",
      "/tmp/rpyc_server.py"]]
    rfl rfl rfl rfl
  ⟨(bootstrap_stage_order mismatchEnv "3.12" 30).2.2.2.2.1
    "/usr/bin/python3" [.execCmd ["which", "python3"]] rfl rfl (by decide),
   h4.2.1, h4.2.2⟩

/-! Claim C1: structural lemmas about the two passes of the sanitizer. -/

theorem firstPass_keep_of_mem (m : String) {k : String} {v : Value} {g : Dict}
    (hmem : (k, v) ∈ g) (hk : k ≠ "@pytest_ar")
    (hv : ∀ h2, v = .func h2 → h2.module ≠ m) :
    (k, v) ∈ (firstPass m g).1 := by
  induction g with
  | nil => simp at hmem
  | cons kv rest ih =>
    obtain ⟨k2, v2⟩ := kv
    rcases hfp : firstPass m rest with ⟨d, tp⟩
    rcases List.mem_cons.mp hmem with h1 | h1
    · have e1 : k = k2 := congrArg Prod.fst h1
      have e2 : v = v2 := congrArg Prod.snd h1
      subst e1
      subst e2
      cases v with
      | func h2 =>
        have hm := hv h2 rfl
        simp [firstPass, hfp, hk, hm]
      | data c i =>
        simp [firstPass, hfp, hk]
    · have ihh := ih h1
      rw [hfp] at ihh
      by_cases hk2 : k2 = "@pytest_ar"
      · simp [firstPass, hfp, hk2, ihh]
      · cases v2 with
        | func h2 =>
          by_cases hm2 : h2.module = m
          · simp [firstPass, hfp, hk2, hm2, ihh]
          · simp [firstPass, hfp, hk2, hm2, ihh]
        | data c i =>
          simp [firstPass, hfp, hk2, ihh]

theorem firstPass_patch_of_mem (m : String) {k : String} {h2 : FuncObj} {g : Dict}
    (hmem : (k, .func h2) ∈ g) (hk : k ≠ "@pytest_ar")
    (hm : h2.module = m) : k ∈ (firstPass m g).2 := by
  induction g with
  | nil => simp at hmem
  | cons kv rest ih =>
    obtain ⟨k2, v2⟩ := kv
    rcases hfp : firstPass m rest with ⟨d, tp⟩
    rcases List.mem_cons.mp hmem with h1 | h1
    · have e1 : k = k2 := congrArg Prod.fst h1
      have e2 : Value.func h2 = v2 := congrArg Prod.snd h1
      subst e1
      rw [← e2]
      simp [firstPass, hfp, hk, hm]
    · have ihh := ih h1
      rw [hfp] at ihh
      by_cases hk2 : k2 = "@pytest_ar"
      · simp [firstPass, hfp, hk2, ihh]
      · cases v2 with
        | func h3 =>
          by_cases hm2 : h3.module = m
          · simp [firstPass, hfp, hk2, hm2, ihh]
          · simp [firstPass, hfp, hk2, hm2, ihh]
        | data c i =>
          simp [firstPass, hfp, hk2, ihh]

theorem firstPass_keep_shape {m : String} {g : Dict} {kv : String × Value}
    (hmem : kv ∈ (firstPass m g).1) :
    kv ∈ g ∧ kv.1 ≠ "@pytest_ar" ∧
      ∀ h2, kv.2 = .func h2 → h2.module ≠ m := by
  induction g with
  | nil => simp [firstPass] at hmem
  | cons kv2 rest ih =>
    obtain ⟨k2, v2⟩ := kv2
    rcases hfp : firstPass m rest with ⟨d, tp⟩
    rw [hfp] at ih
    by_cases hk2 : k2 = "@pytest_ar"
    · rw [show firstPass m ((k2, v2) :: rest) = (d, tp) by
        simp [firstPass, hfp, hk2]] at hmem
      obtain ⟨ha, hb, hc⟩ := ih hmem
      exact ⟨List.mem_cons_of_mem _ ha, hb, hc⟩
    · cases v2 with
      | func h3 =>
        by_cases hm2 : h3.module = m
        · rw [show firstPass m ((k2, .func h3) :: rest) = (d, k2 :: tp) by
            simp [firstPass, hfp, hk2, hm2]] at hmem
          obtain ⟨ha, hb, hc⟩ := ih hmem
          exact ⟨List.mem_cons_of_mem _ ha, hb, hc⟩
        · rw [show firstPass m ((k2, .func h3) :: rest) =
              ((k2, .func h3) :: d, tp) by
            simp [firstPass, hfp, hk2, hm2]] at hmem
          rcases List.mem_cons.mp hmem with h1 | h1
          · subst h1
            exact ⟨List.mem_cons_self _ _, hk2, fun h4 he => by
              cases he; exact hm2⟩
          · obtain ⟨ha, hb, hc⟩ := ih h1
            exact ⟨List.mem_cons_of_mem _ ha, hb, hc⟩
      | data c i =>
        rw [show firstPass m ((k2, .data c i) :: rest) =
            ((k2, .data c i) :: d, tp) by
          simp [firstPass, hfp, hk2]] at hmem
        rcases List.mem_cons.mp hmem with h1 | h1
        · subst h1
          exact ⟨List.mem_cons_self _ _, hk2, fun h4 he => by cases he⟩
        · obtain ⟨ha, hb, hc⟩ := ih h1
          exact ⟨List.mem_cons_of_mem _ ha, hb, hc⟩

theorem firstPass_patch_shape {m : String} {g : Dict} {k : String}
    (hmem : k ∈ (firstPass m g).2) :
    k ≠ "@pytest_ar" ∧ ∃ h2, (k, Value.func h2) ∈ g ∧ h2.module = m := by
  induction g with
  | nil => simp [firstPass] at hmem
  | cons kv2 rest ih =>
    obtain ⟨k2, v2⟩ := kv2
    rcases hfp : firstPass m rest with ⟨d, tp⟩
    rw [hfp] at ih
    by_cases hk2 : k2 = "@pytest_ar"
    · rw [show firstPass m ((k2, v2) :: rest) = (d, tp) by
        simp [firstPass, hfp, hk2]] at hmem
      obtain ⟨ha, h2, hb, hc⟩ := ih hmem
      exact ⟨ha, h2, List.mem_cons_of_mem _ hb, hc⟩
    · cases v2 with
      | func h3 =>
        by_cases hm2 : h3.module = m
        · rw [show firstPass m ((k2, .func h3) :: rest) = (d, k2 :: tp) by
            simp [firstPass, hfp, hk2, hm2]] at hmem
          rcases List.mem_cons.mp hmem with h1 | h1
          · subst h1
            exact ⟨hk2, h3, List.mem_cons_self _ _, hm2⟩
          · obtain ⟨ha, h4, hb, hc⟩ := ih h1
            exact ⟨ha, h4, List.mem_cons_of_mem _ hb, hc⟩
        · rw [show firstPass m ((k2, .func h3) :: rest) =
              ((k2, .func h3) :: d, tp) by
            simp [firstPass, hfp, hk2, hm2]] at hmem
          obtain ⟨ha, h4, hb, hc⟩ := ih hmem
          exact ⟨ha, h4, List.mem_cons_of_mem _ hb, hc⟩
      | data c i =>
        rw [show firstPass m ((k2, .data c i) :: rest) =
            ((k2, .data c i) :: d, tp) by
          simp [firstPass, hfp, hk2]] at hmem
        obtain ⟨ha, h4, hb, hc⟩ := ih hmem
        exact ⟨ha, h4, List.mem_cons_of_mem _ hb, hc⟩

theorem firstPass_nodup (m : String) {g : Dict}
    (hnd : (g.map Prod.fst).Nodup) :
    (((firstPass m g).1.map Prod.fst) ++ (firstPass m g).2).Nodup := by
  induction g with
  | nil => simp [firstPass]
  | cons kv2 rest ih =>
    obtain ⟨k2, v2⟩ := kv2
    rcases hfp : firstPass m rest with ⟨d, tp⟩
    rw [hfp] at ih
    obtain ⟨hk2m, hnd2⟩ := List.nodup_cons.mp hnd
    have ihh := ih hnd2
    have hnotd : k2 ∉ d.map Prod.fst := by
      intro hc
      obtain ⟨kv, hkv, he⟩ := List.mem_map.mp hc
      have := (firstPass_keep_shape (hfp ▸ hkv : kv ∈ (firstPass m rest).1)).1
      exact hk2m (List.mem_map.mpr ⟨kv, this, he⟩)
    have hnottp : k2 ∉ tp := by
      intro hc
      obtain ⟨_, h3, hb, _⟩ :=
        firstPass_patch_shape (hfp ▸ hc : k2 ∈ (firstPass m rest).2)
      exact hk2m (List.mem_map.mpr ⟨(k2, .func h3), hb, rfl⟩)
    by_cases hk2 : k2 = "@pytest_ar"
    · rw [show firstPass m ((k2, v2) :: rest) = (d, tp) by
        simp [firstPass, hfp, hk2]]
      exact ihh
    · cases v2 with
      | func h3 =>
        by_cases hm2 : h3.module = m
        · rw [show firstPass m ((k2, .func h3) :: rest) = (d, k2 :: tp) by
            simp [firstPass, hfp, hk2, hm2]]
          refine (@List.nodup_middle _ k2 (d.map Prod.fst) tp).mpr ?_
          refine List.nodup_cons.mpr ⟨?_, ihh⟩
          intro hc
          rcases List.mem_append.mp hc with hc | hc
          · exact hnotd hc
          · exact hnottp hc
        · rw [show firstPass m ((k2, .func h3) :: rest) =
              ((k2, .func h3) :: d, tp) by
            simp [firstPass, hfp, hk2, hm2]]
          simp only [List.map_cons, List.cons_append]
          refine List.nodup_cons.mpr ⟨?_, ihh⟩
          intro hc
          rcases List.mem_append.mp hc with hc | hc
          · exact hnotd hc
          · exact hnottp hc
      | data c i =>
        rw [show firstPass m ((k2, .data c i) :: rest) =
            ((k2, .data c i) :: d, tp) by
          simp [firstPass, hfp, hk2]]
        simp only [List.map_cons, List.cons_append]
        refine List.nodup_cons.mpr ⟨?_, ihh⟩
        intro hc
        rcases List.mem_append.mp hc with hc | hc
        · exact hnotd hc
        · exact hnottp hc

theorem secondPass_mem_shape {fresh : Nat} {g : Dict} {tp : List String}
    {kv : String × Value} (hmem : kv ∈ secondPass fresh g tp) :
    kv.1 ∈ tp ∧ ∃ h2, alookup kv.1 g = some (.func h2) ∧
      kv.2 = .func (cloneInto fresh h2) := by
  induction tp with
  | nil => simp [secondPass] at hmem
  | cons k rest ih =>
    rcases hl : alookup k g with _ | v
    · rw [show secondPass fresh g (k :: rest) = secondPass fresh g rest by
        simp [secondPass, hl]] at hmem
      obtain ⟨ha, hb⟩ := ih hmem
      exact ⟨List.mem_cons_of_mem _ ha, hb⟩
    · cases v with
      | func h2 =>
        rw [show secondPass fresh g (k :: rest) =
            (k, .func (cloneInto fresh h2)) :: secondPass fresh g rest by
          simp [secondPass, hl]] at hmem
        rcases List.mem_cons.mp hmem with h1 | h1
        · subst h1
          exact ⟨List.mem_cons_self _ _, h2, hl, rfl⟩
        · obtain ⟨ha, hb⟩ := ih h1
          exact ⟨List.mem_cons_of_mem _ ha, hb⟩
      | data c i =>
        rw [show secondPass fresh g (k :: rest) = secondPass fresh g rest by
          simp [secondPass, hl]] at hmem
        obtain ⟨ha, hb⟩ := ih hmem
        exact ⟨List.mem_cons_of_mem _ ha, hb⟩

theorem secondPass_mem_of_patch (fresh : Nat) {g : Dict} {tp : List String}
    {k : String} {h2 : FuncObj} (htp : k ∈ tp)
    (hl : alookup k g = some (.func h2)) :
    (k, Value.func (cloneInto fresh h2)) ∈ secondPass fresh g tp := by
  induction tp with
  | nil => simp at htp
  | cons k2 rest ih =>
    rcases List.mem_cons.mp htp with h1 | h1
    · subst h1
      simp [secondPass, hl]
    · have := ih h1
      cases hv : alookup k2 g with
      | none => simpa [secondPass, hv] using this
      | some v =>
        cases v with
        | func h3 => simp [secondPass, hv, this]
        | data c i => simpa [secondPass, hv] using this

theorem secondPass_keys_sublist (fresh : Nat) (g : Dict)
    (tp : List String) :
    List.Sublist ((secondPass fresh g tp).map Prod.fst) tp := by
  induction tp with
  | nil => simp [secondPass]
  | cons k rest ih =>
    cases hv : alookup k g with
    | none =>
      rw [show secondPass fresh g (k :: rest) = secondPass fresh g rest by
        simp [secondPass, hv]]
      exact ih.cons k
    | some v =>
      cases v with
      | func h2 =>
        rw [show secondPass fresh g (k :: rest) =
            (k, .func (cloneInto fresh h2)) :: secondPass fresh g rest by
          simp [secondPass, hv]]
        simpa using ih.cons₂ k
      | data c i =>
        rw [show secondPass fresh g (k :: rest) = secondPass fresh g rest by
          simp [secondPass, hv]]
        exact ih.cons k

theorem clean_globals_keys_nodup {σ : Store} (fresh : Nat) (f : FuncObj)
    (hnd : ((lookupStore σ f.globalsRef).map Prod.fst).Nodup) :
    ((make_picklable σ fresh f).2.map Prod.fst).Nodup := by
  have h1 := firstPass_nodup f.module hnd
  have h2 := secondPass_keys_sublist fresh (lookupStore σ f.globalsRef)
    (firstPass f.module (lookupStore σ f.globalsRef)).2
  have hsub :
      List.Sublist
        (((firstPass f.module (lookupStore σ f.globalsRef)).1.map
          Prod.fst) ++
          ((secondPass fresh (lookupStore σ f.globalsRef)
            (firstPass f.module (lookupStore σ f.globalsRef)).2).map
            Prod.fst))
        (((firstPass f.module (lookupStore σ f.globalsRef)).1.map
          Prod.fst) ++
          (firstPass f.module (lookupStore σ f.globalsRef)).2) :=
    List.Sublist.append_left h2 _
  have := h1.sublist hsub
  simpa [make_picklable] using this

/-- C1.  For a function whose globals dictionary has no duplicate keys (a
property of every Python dict), the clean namespace built by the sanitizer
binds a copy of every non-callable, non-instrumentation binding of the
original globals; binds, for every binding that is a function defined in
the original module (other than the rewrite hook key), a clone sharing the
same new globals reference; never binds the rewrite hook key; and the
target clone itself lives in that same namespace with its module rewritten
to the sentinel. -/
theorem sanitizer_clean_globals (σ : Store) (fresh : Nat) (f : FuncObj)
    (hnd : ((lookupStore σ f.globalsRef).map Prod.fst).Nodup) :
    (∀ k i, k ≠ "@pytest_ar" →
      alookup k (lookupStore σ f.globalsRef) = some (.data false i) →
      alookup k (make_picklable σ fresh f).2 = some (.data false i)) ∧
    (∀ k h2, k ≠ "@pytest_ar" →
      alookup k (lookupStore σ f.globalsRef) = some (.func h2) →
      h2.module = f.module →
      alookup k (make_picklable σ fresh f).2 =
        some (.func (cloneInto fresh h2))) ∧
    alookup "@pytest_ar" (make_picklable σ fresh f).2 = none ∧
    (make_picklable σ fresh f).1.globalsRef = fresh ∧
    (make_picklable σ fresh f).1.module = "__mp_main__" := by
  have hcg : (make_picklable σ fresh f).2 =
      (firstPass f.module (lookupStore σ f.globalsRef)).1 ++
        secondPass fresh (lookupStore σ f.globalsRef)
          (firstPass f.module (lookupStore σ f.globalsRef)).2 := rfl
  have hndcg := clean_globals_keys_nodup fresh f hnd
  refine ⟨?_, ?_, ?_, rfl, rfl⟩
  · intro k i hk hl
    have hmem := alookup_mem hl
    have hd := firstPass_keep_of_mem f.module hmem hk
      (fun h2 he => by cases he)
    have hin : (k, Value.data false i) ∈ (make_picklable σ fresh f).2 := by
      rw [hcg]
      exact List.mem_append_left _ hd
    exact alookup_of_mem_nodup hndcg hin
  · intro k h2 hk hl hm
    have hmem := alookup_mem hl
    have htp := firstPass_patch_of_mem f.module hmem hk hm
    have hsp := secondPass_mem_of_patch fresh htp hl
    have hin : (k, Value.func (cloneInto fresh h2)) ∈
        (make_picklable σ fresh f).2 := by
      rw [hcg]
      exact List.mem_append_right _ hsp
    exact alookup_of_mem_nodup hndcg hin
  · refine alookup_not_mem ?_
    intro hc
    rw [hcg, List.map_append] at hc
    rcases List.mem_append.mp hc with hc | hc
    · obtain ⟨kv, hkv, he⟩ := List.mem_map.mp hc
      exact (firstPass_keep_shape hkv).2.1 he
    · obtain ⟨kv, hkv, he⟩ := List.mem_map.mp hc
      have := (secondPass_mem_shape hkv).1
      rw [he] at this
      exact (firstPass_patch_shape this).1 rfl

/-- Witness for C1 on a concrete module: the constant X is copied, the
class-like callable is kept as-is, the same-module helper is cloned into
the shared namespace 10, the rewrite hook key disappears, and the target
clone lives in namespace 10 under the sentinel module. -/
theorem sanitizer_clean_globals_witness :
    alookup "X" (make_picklable wfStore 10 wfTarget).2 =
      some (.data false 7) ∧
    alookup "helper" (make_picklable wfStore 10 wfTarget).2 =
      some (.func (cloneInto 10 wfHelper)) ∧
    alookup "@pytest_ar" (make_picklable wfStore 10 wfTarget).2 = none ∧
    (make_picklable wfStore 10 wfTarget).1.globalsRef = 10 ∧
    (make_picklable wfStore 10 wfTarget).1.module = "__mp_main__" :=
  have h := sanitizer_clean_globals wfStore 10 wfTarget (by decide)
  ⟨h.1 "X" 7 (by decide) (by decide),
   h.2.1 "helper" wfHelper (by decide) (by decide) (by decide),
   h.2.2.1, h.2.2.2.1, h.2.2.2.2⟩

/-! Claim C8: idempotence of the sanitizer up to observable behavior. -/

theorem storeDict_bounded {b : Nat} {σ : Store}
    (hσ : StoreRefsBelow b σ) (r : Nat) :
    DictRefsBelow b (lookupStore σ r) := by
  intro kv hkv
  unfold lookupStore at hkv
  cases hl : alookup r σ with
  | none => rw [hl] at hkv; simp at hkv
  | some d0 =>
    rw [hl] at hkv
    exact (hσ _ (alookup_mem hl)).2 kv hkv

theorem firstPass_append (m : String) (xs ys : Dict) :
    firstPass m (xs ++ ys) =
      ((firstPass m xs).1 ++ (firstPass m ys).1,
       (firstPass m xs).2 ++ (firstPass m ys).2) := by
  induction xs with
  | nil => simp [firstPass]
  | cons kv rest ih =>
    obtain ⟨k2, v2⟩ := kv
    by_cases hk2 : k2 = "@pytest_ar"
    · simp [firstPass, hk2, ih]
    · cases v2 with
      | func h3 =>
        by_cases hm2 : h3.module = m
        · simp [firstPass, hk2, hm2, ih]
        · simp [firstPass, hk2, hm2, ih]
      | data c i =>
        simp [firstPass, hk2, ih]

theorem firstPass_all_keep {m : String} {xs : Dict}
    (h : ∀ kv ∈ xs, kv.1 ≠ "@pytest_ar" ∧
      ∀ h2, kv.2 = Value.func h2 → h2.module ≠ m) :
    firstPass m xs = (xs, []) := by
  induction xs with
  | nil => rfl
  | cons kv rest ih =>
    obtain ⟨k2, v2⟩ := kv
    have hh := h (k2, v2) (List.mem_cons_self _ _)
    have ihh := ih (fun kv2 hkv2 => h kv2 (List.mem_cons_of_mem _ hkv2))
    cases v2 with
    | func h3 =>
      have hm := hh.2 h3 rfl
      simp [firstPass, ihh, hh.1, hm]
    | data c i =>
      simp [firstPass, ihh, hh.1]

theorem firstPass_all_patch {m : String} {xs : Dict}
    (h : ∀ kv ∈ xs, kv.1 ≠ "@pytest_ar" ∧
      ∃ h2, kv.2 = Value.func h2 ∧ h2.module = m) :
    firstPass m xs = ([], xs.map Prod.fst) := by
  induction xs with
  | nil => rfl
  | cons kv rest ih =>
    obtain ⟨k2, v2⟩ := kv
    have hh := h (k2, v2) (List.mem_cons_self _ _)
    have ihh := ih (fun kv2 hkv2 => h kv2 (List.mem_cons_of_mem _ hkv2))
    obtain ⟨h2, he, hm⟩ := hh.2
    simp only at he
    subst he
    simp [firstPass, ihh, hh.1, hm]

theorem cloneInto_retarget {fresh fresh2 : Nat} {h2 : FuncObj}
    (hm : h2.module = "__mp_main__") (hr : h2.globalsRef = fresh) :
    cloneInto fresh2 h2 = retarget fresh fresh2 h2 := by
  cases h2
  simp only at hm hr
  subst hm
  subst hr
  simp [cloneInto, retarget]

theorem retargetVal_id {fresh fresh2 : Nat} {v : Value}
    (h : valueRef v < fresh) : retargetVal fresh fresh2 v = v := by
  cases v with
  | func g =>
    have : g.globalsRef ≠ fresh := by
      simp [valueRef] at h
      omega
    simp [retargetVal, retarget, this]
  | data c i => rfl

theorem secondPass_retarget {fresh fresh2 : Nat} {cgAll : Dict} :
    ∀ {sp : Dict},
    (∀ kv ∈ sp, alookup kv.1 cgAll = some kv.2) →
    (∀ kv ∈ sp, ∃ h2, kv.2 = Value.func h2 ∧ h2.globalsRef = fresh ∧
      h2.module = "__mp_main__") →
    secondPass fresh2 cgAll (sp.map Prod.fst) =
      sp.map (fun kv => (kv.1, retargetVal fresh fresh2 kv.2)) := by
  intro sp
  induction sp with
  | nil => intro _ _; rfl
  | cons kv rest ih =>
    intro hlook hshape
    obtain ⟨k2, v2⟩ := kv
    have hl := hlook (k2, v2) (List.mem_cons_self _ _)
    obtain ⟨h2, he, hr, hm⟩ := hshape (k2, v2) (List.mem_cons_self _ _)
    simp only at hl he
    subst he
    have ihh := ih (fun kv2 hkv2 => hlook kv2 (List.mem_cons_of_mem _ hkv2))
      (fun kv2 hkv2 => hshape kv2 (List.mem_cons_of_mem _ hkv2))
    simp only [List.map_cons, secondPass, hl, ihh]
    simp [cloneInto_retarget hm hr, retargetVal]

theorem clean_globals_refs (σ : Store) (b fresh : Nat) (f : FuncObj)
    (hσ : StoreRefsBelow b σ) :
    ∀ kv ∈ (make_picklable σ fresh f).2,
      valueRef kv.2 < b ∨ valueRef kv.2 = fresh := by
  intro kv hkv
  have hcg : (make_picklable σ fresh f).2 =
      (firstPass f.module (lookupStore σ f.globalsRef)).1 ++
        secondPass fresh (lookupStore σ f.globalsRef)
          (firstPass f.module (lookupStore σ f.globalsRef)).2 := rfl
  rw [hcg] at hkv
  rcases List.mem_append.mp hkv with hd | hsp
  · exact Or.inl (storeDict_bounded hσ f.globalsRef kv
      (firstPass_keep_shape hd).1)
  · obtain ⟨_, h0, _, he⟩ := secondPass_mem_shape hsp
    right
    rw [he]
    rfl

theorem clean_globals_retarget (σ : Store) (b fresh fresh2 : Nat)
    (f : FuncObj)
    (hσ : StoreRefsBelow b σ)
    (hb1 : b ≤ fresh)
    (hnd : ((lookupStore σ f.globalsRef).map Prod.fst).Nodup)
    (hnfs : NoForeignSentinel f.module (lookupStore σ f.globalsRef)) :
    (make_picklable (insertStore σ fresh (make_picklable σ fresh f).2)
      fresh2 (make_picklable σ fresh f).1).2 =
      (make_picklable σ fresh f).2.map
        (fun kv => (kv.1, retargetVal fresh fresh2 kv.2)) := by
  have hcg : (make_picklable σ fresh f).2 =
      (firstPass f.module (lookupStore σ f.globalsRef)).1 ++
        secondPass fresh (lookupStore σ f.globalsRef)
          (firstPass f.module (lookupStore σ f.globalsRef)).2 := rfl
  set d := (firstPass f.module (lookupStore σ f.globalsRef)).1 with hd
  set sp := secondPass fresh (lookupStore σ f.globalsRef)
    (firstPass f.module (lookupStore σ f.globalsRef)).2 with hsp
  have hg1 : lookupStore
      (insertStore σ fresh (make_picklable σ fresh f).2)
      (make_picklable σ fresh f).1.globalsRef = d ++ sp := by
    show lookupStore ((fresh, (make_picklable σ fresh f).2) :: σ) fresh =
      d ++ sp
    simp [lookupStore, alookup]
    exact hcg
  have hcg2 : (make_picklable
      (insertStore σ fresh (make_picklable σ fresh f).2) fresh2
      (make_picklable σ fresh f).1).2 =
      (firstPass "__mp_main__" (d ++ sp)).1 ++
        secondPass fresh2 (d ++ sp)
          (firstPass "__mp_main__" (d ++ sp)).2 := by
    show (firstPass (make_picklable σ fresh f).1.module
        (lookupStore (insertStore σ fresh (make_picklable σ fresh f).2)
          (make_picklable σ fresh f).1.globalsRef)).1 ++ _ = _
    rw [hg1]
    rfl
  have hkeep : ∀ kv ∈ d, kv.1 ≠ "@pytest_ar" ∧
      ∀ h2, kv.2 = Value.func h2 → h2.module ≠ "__mp_main__" := by
    intro kv hkv
    have hs := firstPass_keep_shape hkv
    exact ⟨hs.2.1, fun h2 he => hnfs kv hs.1 h2 he (hs.2.2 h2 he)⟩
  have hclone : ∀ kv ∈ sp, kv.1 ≠ "@pytest_ar" ∧
      ∃ h2, kv.2 = Value.func h2 ∧ h2.module = "__mp_main__" := by
    intro kv hkv
    obtain ⟨htp, h0, hl0, he⟩ := secondPass_mem_shape hkv
    exact ⟨(firstPass_patch_shape htp).1, cloneInto fresh h0, he, rfl⟩
  have hfp : firstPass "__mp_main__" (d ++ sp) = (d, sp.map Prod.fst) := by
    rw [firstPass_append, firstPass_all_keep hkeep,
      firstPass_all_patch hclone]
    simp
  have hnodupcg : ((d ++ sp).map Prod.fst).Nodup := by
    have := clean_globals_keys_nodup fresh f hnd
    rwa [hcg] at this
  have hlook : ∀ kv ∈ sp, alookup kv.1 (d ++ sp) = some kv.2 := by
    intro kv hkv
    obtain ⟨k2, v2⟩ := kv
    exact alookup_of_mem_nodup hnodupcg (List.mem_append_right _ hkv)
  have hshape2 : ∀ kv ∈ sp, ∃ h2, kv.2 = Value.func h2 ∧
      h2.globalsRef = fresh ∧ h2.module = "__mp_main__" := by
    intro kv hkv
    obtain ⟨_, h0, _, he⟩ := secondPass_mem_shape hkv
    exact ⟨cloneInto fresh h0, he, rfl, rfl⟩
  have hsp2 : secondPass fresh2 (d ++ sp) (sp.map Prod.fst) =
      sp.map (fun kv => (kv.1, retargetVal fresh fresh2 kv.2)) :=
    secondPass_retarget hlook hshape2
  have hA : ∀ kv ∈ d, valueRef kv.2 < b := fun kv hkv =>
    storeDict_bounded hσ f.globalsRef kv (firstPass_keep_shape hkv).1
  have hdmap : d.map (fun kv => (kv.1, retargetVal fresh fresh2 kv.2)) =
      d := by
    have hcongr : ∀ kv ∈ d,
        (kv.1, retargetVal fresh fresh2 kv.2) = kv := by
      intro kv hkv
      rw [retargetVal_id (Nat.lt_of_lt_of_le (hA kv hkv) hb1)]
    calc d.map (fun kv => (kv.1, retargetVal fresh fresh2 kv.2))
        = d.map id := List.map_congr_left hcongr
      _ = d := List.map_id d
  rw [hcg2, hfp, hsp2, hcg, List.map_append, hdmap]

theorem eval_retarget (σ : Store) (b fresh fresh2 : Nat) (f : FuncObj)
    (hσ : StoreRefsBelow b σ)
    (hb1 : b ≤ fresh) (hb2 : fresh < fresh2)
    (hnd : ((lookupStore σ f.globalsRef).map Prod.fst).Nodup)
    (hnfs : NoForeignSentinel f.module (lookupStore σ f.globalsRef)) :
    ∀ (fuel : Nat) (arg : Nat) (h : FuncObj),
      h.globalsRef < b ∨ h.globalsRef = fresh →
      eval (insertStore (insertStore σ fresh (make_picklable σ fresh f).2)
          fresh2
          (make_picklable
            (insertStore σ fresh (make_picklable σ fresh f).2) fresh2
            (make_picklable σ fresh f).1).2)
        fuel (retarget fresh fresh2 h) arg =
      eval (insertStore σ fresh (make_picklable σ fresh f).2) fuel h arg := by
  have hmap := clean_globals_retarget σ b fresh fresh2 f hσ hb1 hnd hnfs
  have hrefs := clean_globals_refs σ b fresh f hσ
  intro fuel
  induction fuel with
  | zero => intro arg h _; rfl
  | succ fuel ih =>
    intro arg h hh
    rcases hh with hlt | heq
    · have hne1 : h.globalsRef ≠ fresh := by omega
      have hne2 : h.globalsRef ≠ fresh2 := by omega
      have hrid : retarget fresh fresh2 h = h := by simp [retarget, hne1]
      rw [hrid]
      have hdict : lookupStore
          (insertStore (insertStore σ fresh (make_picklable σ fresh f).2)
            fresh2
            (make_picklable
              (insertStore σ fresh (make_picklable σ fresh f).2) fresh2
              (make_picklable σ fresh f).1).2) h.globalsRef =
          lookupStore (insertStore σ fresh (make_picklable σ fresh f).2)
            h.globalsRef := by
        simp [insertStore, lookupStore, alookup, hne2]
      have hdictσ : lookupStore
          (insertStore σ fresh (make_picklable σ fresh f).2)
            h.globalsRef = lookupStore σ h.globalsRef := by
        simp [insertStore, lookupStore, alookup, hne1]
      cases hc : h.code with
      | retConst n => simp [eval, hc]
      | retArg => simp [eval, hc]
      | retGlobal s => simp [eval, hc, hdict]
      | callGlobal s =>
        simp only [eval, hc, hdict]
        cases hl : alookup s (lookupStore
            (insertStore σ fresh (make_picklable σ fresh f).2)
            h.globalsRef) with
        | none => rfl
        | some v =>
          cases v with
          | data c i => rfl
          | func g =>
            have hgb : g.globalsRef < b := by
              have hmem := alookup_mem hl
              rw [hdictσ] at hmem
              exact storeDict_bounded hσ h.globalsRef (s, .func g) hmem
            have hgid : retarget fresh fresh2 g = g := by
              have : g.globalsRef ≠ fresh := by omega
              simp [retarget, this]
            have hihg := ih arg g (Or.inl hgb)
            rw [hgid] at hihg
            exact hihg
    · have hre : retarget fresh fresh2 h = { h with globalsRef := fresh2 } := by
        simp [retarget, heq]
      rw [hre]
      have hd2 : lookupStore
          (insertStore (insertStore σ fresh (make_picklable σ fresh f).2)
            fresh2
            (make_picklable
              (insertStore σ fresh (make_picklable σ fresh f).2) fresh2
              (make_picklable σ fresh f).1).2) fresh2 =
          (make_picklable
            (insertStore σ fresh (make_picklable σ fresh f).2) fresh2
            (make_picklable σ fresh f).1).2 := by
        simp [insertStore, lookupStore, alookup]
      have hd1 : lookupStore
          (insertStore σ fresh (make_picklable σ fresh f).2) fresh =
          (make_picklable σ fresh f).2 := by
        simp [insertStore, lookupStore, alookup]
      have hL := hd2.trans hmap
      cases hc : h.code with
      | retConst n => simp [eval, hc]
      | retArg => simp [eval, hc]
      | retGlobal s =>
        simp only [eval, hc]
        rw [hL, alookup_map_value, heq, hd1]
        cases hl : alookup s (make_picklable σ fresh f).2 with
        | none => rfl
        | some v =>
          cases v with
          | data c i => rfl
          | func g => rfl
      | callGlobal s =>
        simp only [eval, hc]
        rw [hL, alookup_map_value, heq, hd1]
        cases hl : alookup s (make_picklable σ fresh f).2 with
        | none => rfl
        | some v =>
          cases v with
          | data c i => rfl
          | func g =>
            have hmem := alookup_mem hl
            have hcls := hrefs (s, .func g) hmem
            simp only [Option.map_some, retargetVal]
            exact ih arg g (by simpa [valueRef] using hcls)

/-- C8 counterexample.  The target calls a global helper that already
carries the sentinel module name while living in its own namespace.  The
first sanitization keeps that helper as-is (its module differs from the
module of the target), but the second sanitization sees it as same-module
and rebinds its globals to the new clean namespace, where X is 1 instead
of 2.  The once-sanitized callable returns 2 and the twice-sanitized one
returns 1 on the same argument, so sanitizing an already-sanitized
callable is not a behavioral no-op. -/
theorem sanitize_twice_changes_behavior :
    eval exStore1 3 exOnce.1 0 = some 2 ∧
    eval exStore2 3 exTwice.1 0 = some 1 ∧
    eval exStore2 3 exTwice.1 0 ≠ eval exStore1 3 exOnce.1 0 :=
  ⟨rfl, rfl, by decide⟩

/-- C8 amended.  Sanitization is idempotent with respect to observable
behavior for every callable whose globals bind no foreign function already
carrying the sentinel module name: under that proviso, with fresh
namespaces allocated outside the live store (which Python guarantees for
newly created dicts) and duplicate-free dictionary keys, the
twice-sanitized callable computes the same result as the once-sanitized
one for every fuel bound and every argument. -/
theorem sanitize_idempotent_no_foreign_sentinel (σ : Store)
    (b fresh fresh2 : Nat) (f : FuncObj)
    (hσ : StoreRefsBelow b σ)
    (hb1 : b ≤ fresh) (hb2 : fresh < fresh2)
    (hnd : ((lookupStore σ f.globalsRef).map Prod.fst).Nodup)
    (hnfs : NoForeignSentinel f.module (lookupStore σ f.globalsRef)) :
    ∀ (fuel arg : Nat),
      eval (insertStore (insertStore σ fresh (make_picklable σ fresh f).2)
          fresh2
          (make_picklable
            (insertStore σ fresh (make_picklable σ fresh f).2) fresh2
            (make_picklable σ fresh f).1).2)
        fuel
        (make_picklable
          (insertStore σ fresh (make_picklable σ fresh f).2) fresh2
          (make_picklable σ fresh f).1).1
        arg =
      eval (insertStore σ fresh (make_picklable σ fresh f).2) fuel
        (make_picklable σ fresh f).1 arg := by
  intro fuel arg
  have he : (make_picklable
      (insertStore σ fresh (make_picklable σ fresh f).2) fresh2
      (make_picklable σ fresh f).1).1 =
      retarget fresh fresh2 (make_picklable σ fresh f).1 :=
    cloneInto_retarget rfl rfl
  rw [he]
  exact eval_retarget σ b fresh fresh2 f hσ hb1 hb2 hnd hnfs fuel arg
    (make_picklable σ fresh f).1 (Or.inr rfl)

/-- Witness for C8: the well-behaved module satisfies every hypothesis,
and at fuel 3 the twice-sanitized test function indeed computes the same
value as the once-sanitized one. -/
theorem sanitize_idempotent_no_foreign_sentinel_witness :
    eval (insertStore
        (insertStore wfStore 10 (make_picklable wfStore 10 wfTarget).2) 11
        (make_picklable
          (insertStore wfStore 10 (make_picklable wfStore 10 wfTarget).2)
          11 (make_picklable wfStore 10 wfTarget).1).2) 3
      (make_picklable
        (insertStore wfStore 10 (make_picklable wfStore 10 wfTarget).2)
        11 (make_picklable wfStore 10 wfTarget).1).1 0 =
    eval (insertStore wfStore 10 (make_picklable wfStore 10 wfTarget).2) 3
      (make_picklable wfStore 10 wfTarget).1 0 :=
  sanitize_idempotent_no_foreign_sentinel wfStore 1 10 11 wfTarget
    (by
      intro e hem
      have hem2 : e ∈ [((0 : Nat), wfGlobals)] := hem
      fin_cases hem2
      refine ⟨by decide, ?_⟩
      intro kv hkv
      have hkv2 : kv ∈ [("@pytest_ar", Value.data false 9),
        ("helper", Value.func wfHelper), ("X", Value.data false 7),
        ("cls", Value.data true 8)] := hkv
      fin_cases hkv2 <;> decide)
    (by decide) (by decide) (by decide)
    (by
      intro kv hkv g he hm
      have hkv2 : kv ∈ [("@pytest_ar", Value.data false 9),
        ("helper", Value.func wfHelper), ("X", Value.data false 7),
        ("cls", Value.data true 8)] := hkv
      fin_cases hkv2
      · exact absurd he (by simp)
      · have hg : wfHelper = g := by simpa using he
        intro _
        exact hm (by rw [← hg]; rfl)
      · exact absurd he (by simp)
      · exact absurd he (by simp))
    3 0

end PytestInDocker
